import Mathlib

/-!
Verification of the firmware-service emulation layer in
`src/kernel/kexec.c` (PE loader/relocator, EFI memory ledger, GUID
registry, protocol dispatch).  Every definition below is a shallow
embedding of the corresponding C function; machine integers are
modelled as `Nat` with explicit reductions modulo `2 ^ w` where the C
arithmetic can wrap.
-/

/-! ## Basic constants (from the C source and the kernel headers it uses) -/

/-- Page size of the target kernel build (4 KiB pages). -/
def PAGE_SIZE : Nat := 4096

/-- `#define SEGMENTS_OFFSET_FROM_ZERO 0x1000000` (offset added by u-root pekexec). -/
def SEGMENTS_OFFSET_FROM_ZERO : Nat := 0x1000000

/-- `#define IMAGE_BASE 0x10000000` (the ImageBase of the guest PE). -/
def IMAGE_BASE : Nat := 0x10000000

/-- `#define IMAGE_REL_BASED_DIR64 10` (64-bit absolute relocation type). -/
def IMAGE_REL_BASED_DIR64 : Nat := 10

/-- `EFI_MEMORY_TYPE` enumerator `EfiLoaderCode` (value 1 in the enum). -/
def EfiLoaderCode : Nat := 1

/-- `EFI_MEMORY_TYPE` enumerator `EfiLoaderData` (value 2 in the enum). -/
def EfiLoaderData : Nat := 2

/-- `EFI_MEMORY_TYPE` enumerator `EfiConventionalMemory` (value 7 in the enum). -/
def EfiConventionalMemory : Nat := 7

/-- `EFI_ALLOCATE_TYPE` enumerator `AllocateAnyPages` (value 0). -/
def AllocateAnyPages : Nat := 0

/-- `EFI_ALLOCATE_TYPE` enumerator `AllocateAddress` (value 2). -/
def AllocateAddress : Nat := 2

/-- `EFI_DEFAULT_MEM_ATTRIBUTES = EFI_MEMORY_UC | EFI_MEMORY_WC | EFI_MEMORY_WT
| EFI_MEMORY_WB` which is `1 | 2 | 4 | 8 = 0xF` with the Linux `efi.h` values. -/
def EFI_DEFAULT_MEM_ATTRIBUTES : Nat := 0xF

/-- The EFI status codes actually produced by the hooks in `kexec.c`,
as an abstract enumeration. -/
inductive EfiStatus where
  | success
  | invalidParameter
  | unsupported
  | bufferTooSmall
  | outOfResources
  | notFound
deriving DecidableEq, Repr

/-! ## Memory ledger data model

`EFI_MEMORY_DESCRIPTOR` is the 48-byte record `{u32 type; u32 pad;
u64 phys_addr; u64 virt_addr; u64 num_pages; u64 attribute; u64 pad2}`.
The ledger `efi_memory_mappings` is a kernel linked list to which
`efi_register_mem_allocation` appends with `list_add_tail`; we model it
as a `List` (head = oldest entry), appending at the right end. -/

structure EFI_MEMORY_DESCRIPTOR where
  type      : Nat
  pad       : Nat
  phys_addr : Nat
  virt_addr : Nat
  num_pages : Nat
  attr      : Nat
  pad2      : Nat
deriving DecidableEq, Repr

abbrev Ledger := List EFI_MEMORY_DESCRIPTOR

/-- `efi_register_mem_allocation`: builds a zeroed descriptor, fills
`type`, `phys_addr` (the physical address of the backing allocation,
passed here directly instead of `virt_to_phys(allocation)`),
`num_pages` and the default attributes, and appends it to the tail of
`efi_memory_mappings`.  The early return when the bookkeeping `kmalloc`
itself fails is not modelled (that path registers nothing). -/
def efi_register_mem_allocation (MemoryType NumberOfPages physAddr : Nat)
    (L : Ledger) : Ledger :=
  L ++ [{ type := MemoryType, pad := 0, phys_addr := physAddr, virt_addr := 0,
          num_pages := NumberOfPages, attr := EFI_DEFAULT_MEM_ATTRIBUTES,
          pad2 := 0 }]

/-- `efi_unregister_allocation`: walks the ledger in order; skips
descriptors whose range `[phys_addr, phys_addr + num_pages*PAGE_SIZE)`
does not contain `PhysicalAddress`; at the first containing descriptor
it returns `EFI_INVALID_PARAMETER` (ledger untouched) unless the offset
is zero and the page count matches, in which case it re-tags that
descriptor as `EfiConventionalMemory` and returns `EFI_SUCCESS`.  If no
descriptor contains the address it returns `EFI_INVALID_PARAMETER`. -/
def efi_unregister_allocation (PhysicalAddress NumberOfPages : Nat) :
    Ledger → EfiStatus × Ledger
  | [] => (.invalidParameter, [])
  | d :: rest =>
    let end_of_region := d.phys_addr + d.num_pages * PAGE_SIZE
    if PhysicalAddress < d.phys_addr ∨ end_of_region ≤ PhysicalAddress then
      let r := efi_unregister_allocation PhysicalAddress NumberOfPages rest
      (r.1, d :: r.2)
    else if PhysicalAddress - d.phys_addr ≠ 0 ∨ d.num_pages ≠ NumberOfPages then
      (.invalidParameter, d :: rest)
    else
      (.success, { d with type := EfiConventionalMemory } :: rest)

/-- `efi_hook_FreePages` just forwards to `efi_unregister_allocation`. -/
def efi_hook_FreePages (PhysicalAddress NumberOfPages : Nat) (L : Ledger) :
    EfiStatus × Ledger :=
  efi_unregister_allocation PhysicalAddress NumberOfPages L

/-- `#define NUM_PAGES(size) ((size-1) / PAGE_SIZE + 1)` with `size_t`
(64-bit) wrap-around on `size - 1`. -/
def NUM_PAGES (size : Nat) : Nat :=
  (size + 2 ^ 64 - 1) % 2 ^ 64 / PAGE_SIZE + 1

/-- `efi_hook_AllocatePool`: obtains fresh host memory (modelled by the
oracle argument `host`, `none` = `kmalloc` failure), identity-maps it
(no ledger effect), writes the physical address of the allocation to
`*buffer`, and registers a descriptor for `NUM_PAGES(size)` pages.
Returns `(status, write to *buffer if any, new ledger)`. -/
def efi_hook_AllocatePool (pool_type size : Nat) (host : Option Nat)
    (L : Ledger) : EfiStatus × Option Nat × Ledger :=
  match host with
  | none => (.outOfResources, none, L)
  | some a =>
      (.success, some a, efi_register_mem_allocation pool_type (NUM_PAGES size) a L)

/-- `efi_hook_AllocatePages`: rejects memory types other than
`EfiLoaderData`, `EfiConventionalMemory`, `EfiLoaderCode` with
`EFI_UNSUPPORTED`; for `AllocateAddress` it remaps the requested
physical address (so the registered descriptor starts exactly at
`Memory`) and always succeeds; for `AllocateAnyPages` it delegates to
`efi_hook_AllocatePool` with `NumberOfPages * PAGE_SIZE` bytes and
stores the pool result (or the initial 0 on failure) in `*Memory`;
any other allocate type yields `EFI_UNSUPPORTED`.  Returns
`(status, value of *Memory after the call, new ledger)`. -/
def efi_hook_AllocatePages (Ty MemoryType NumberOfPages Memory : Nat)
    (host : Option Nat) (L : Ledger) : EfiStatus × Nat × Ledger :=
  if MemoryType ≠ EfiLoaderData ∧ MemoryType ≠ EfiConventionalMemory ∧
     MemoryType ≠ EfiLoaderCode then
    (.unsupported, Memory, L)
  else if Ty = AllocateAddress then
    (.success, Memory,
     efi_register_mem_allocation MemoryType NumberOfPages Memory L)
  else if Ty = AllocateAnyPages then
    let r := efi_hook_AllocatePool MemoryType (NumberOfPages * PAGE_SIZE) host L
    (r.1, (r.2.1).getD 0, r.2.2)
  else
    (.unsupported, Memory, L)

/-- `uint64_t efi_mem_map_epoch = 0;` — the map-key source.  No code in
the repository ever modifies it, so it is the constant 0. -/
def efi_mem_map_epoch : Nat := 0

/-- Size of the serialized `EFI_MEMORY_DESCRIPTOR` record:
`sizeof(EFI_MEMORY_DESCRIPTOR)` = 4+4+8+8+8+8+8 = 48 bytes. -/
def DESCRIPTOR_SIZE : Nat := 48

/-- `width` little-endian bytes of `v`. -/
def encodeLE (width v : Nat) : List Nat :=
  (List.range width).map fun i => v / 256 ^ i % 256

/-- The 48 bytes `memcpy` copies for one descriptor (the struct has no
implicit padding). -/
def encode_descriptor (d : EFI_MEMORY_DESCRIPTOR) : List Nat :=
  encodeLE 4 d.type ++ encodeLE 4 d.pad ++ encodeLE 8 d.phys_addr ++
  encodeLE 8 d.virt_addr ++ encodeLE 8 d.num_pages ++ encodeLE 8 d.attr ++
  encodeLE 8 d.pad2

/-- `efi_get_mem_map_size`: counts the ledger entries and multiplies by
the descriptor size. -/
def efi_get_mem_map_size (L : Ledger) : Nat :=
  L.length * DESCRIPTOR_SIZE

/-- `efi_hook_GetMemoryMap`: writes `*DescriptorVersion = 1` and
`*DescriptorSize = 48` unconditionally; if the caller-declared size is
smaller than the ledger needs, writes the required size to
`*MemoryMapSize` and returns `EFI_BUFFER_TOO_SMALL` without touching
the buffer or `*MapKey`; otherwise serializes every descriptor in
ledger order into the buffer, sets `*MemoryMapSize` to the byte count
written and `*MapKey` to `efi_mem_map_epoch`.  The buffer is a byte
list; result tuple is `(status, *MemoryMapSize, buffer, *MapKey,
*DescriptorSize, *DescriptorVersion)`. -/
def efi_hook_GetMemoryMap (MemoryMapSize : Nat) (MemoryMap : List Nat)
    (MapKey : Nat) (L : Ledger) :
    EfiStatus × Nat × List Nat × Nat × Nat × Nat :=
  let need := efi_get_mem_map_size L
  if MemoryMapSize < need then
    (.bufferTooSmall, need, MemoryMap, MapKey, DESCRIPTOR_SIZE, 1)
  else
    (.success, need, L.flatMap encode_descriptor ++ MemoryMap.drop need,
     efi_mem_map_epoch, DESCRIPTOR_SIZE, 1)

/-! ## Ledger operation sequences (for the disjointness invariant) -/

/-- One memory-ledger operation, with the host-allocator choice for the
fresh backing memory passed as an oracle (`none` = allocation failure). -/
inductive MemOp where
  | allocatePool (poolType size : Nat) (host : Option Nat)
  | allocatePages (ty memType count addr : Nat) (host : Option Nat)
  | freePages (addr count : Nat)
deriving DecidableEq, Repr

/-- Effect of one operation on the ledger. -/
def memStep (L : Ledger) : MemOp → Ledger
  | .allocatePool t s h => (efi_hook_AllocatePool t s h L).2.2
  | .allocatePages ty mt c a h => (efi_hook_AllocatePages ty mt c a h L).2.2
  | .freePages a c => (efi_unregister_allocation a c L).2

/-- Ledger after a sequence of operations. -/
def memRun (L : Ledger) : List MemOp → Ledger
  | [] => L
  | op :: ops => memRun (memStep L op) ops

/-- Start of the physical range covered by a descriptor. -/
def descLo (d : EFI_MEMORY_DESCRIPTOR) : Nat := d.phys_addr

/-- One-past-the-end of the physical range covered by a descriptor. -/
def descHi (d : EFI_MEMORY_DESCRIPTOR) : Nat :=
  d.phys_addr + d.num_pages * PAGE_SIZE

/-- A descriptor is active when its type is not `EfiConventionalMemory`. -/
def Active (d : EFI_MEMORY_DESCRIPTOR) : Prop :=
  d.type ≠ EfiConventionalMemory

instance (d : EFI_MEMORY_DESCRIPTOR) : Decidable (Active d) := by
  unfold Active; infer_instance

/-- Two descriptors cover disjoint physical ranges. -/
def RangesDisjoint (d e : EFI_MEMORY_DESCRIPTOR) : Prop :=
  descHi d ≤ descLo e ∨ descHi e ≤ descLo d

instance (d e : EFI_MEMORY_DESCRIPTOR) : Decidable (RangesDisjoint d e) := by
  unfold RangesDisjoint; infer_instance

/-- The ranges of all active descriptors in the ledger are pairwise
disjoint. -/
def ActiveDisjoint (L : Ledger) : Prop :=
  L.Pairwise fun d e => Active d → Active e → RangesDisjoint d e

instance (L : Ledger) : Decidable (ActiveDisjoint L) := by
  unfold ActiveDisjoint; infer_instance

/-! ## GUID registry (`GuidMappings`, `CompareGuid`, `GetGuidName`) -/

/-- `EFI_GUID {u32 Data1; u16 Data2; u16 Data3; u8 Data4[8]}`. -/
structure EFI_GUID where
  Data1 : Nat
  Data2 : Nat
  Data3 : Nat
  Data4 : List Nat
deriving DecidableEq, Repr

/-- `#define NUM_GUID_MAPPINGS 441`. -/
def NUM_GUID_MAPPINGS : Nat := 441

/-- Rows 0..49 of the static GUID table, transcribed entry by entry
from the C initializer (guid, name). -/
def GuidMappings_0 : List (EFI_GUID × String) := [
(⟨0x1BA0062E, 0xC779, 0x4582, [0x85, 0x66, 0x33, 0x6A, 0xE8, 0xF7, 0x8F, 0x09]⟩, "ResetVector"),
  (⟨0xdf1ccef6, 0xf301, 0x4a63, [0x96, 0x61, 0xfc, 0x60, 0x30, 0xdc, 0xc8, 0x80]⟩, "SecMain"),
  (⟨0x52C05B14, 0x0B98, 0x496c, [0xBC, 0x3B, 0x04, 0xB5, 0x02, 0x11, 0xD6, 0x80]⟩, "PeiCore"),
  (⟨0x9B3ADA4F, 0xAE56, 0x4c24, [0x8D, 0xEA, 0xF0, 0x3B, 0x75, 0x58, 0xAE, 0x50]⟩, "PcdPeim"),
  (⟨0xA3610442, 0xE69F, 0x4DF3, [0x82, 0xCA, 0x23, 0x60, 0xC4, 0x03, 0x1A, 0x23]⟩, "ReportStatusCodeRouterPei"),
  (⟨0x9D225237, 0xFA01, 0x464C, [0xA9, 0x49, 0xBA, 0xAB, 0xC0, 0x2D, 0x31, 0xD0]⟩, "StatusCodeHandlerPei"),
  (⟨0x86D70125, 0xBAA3, 0x4296, [0xA6, 0x2F, 0x60, 0x2B, 0xEB, 0xBB, 0x90, 0x81]⟩, "DxeIpl"),
  (⟨0x222c386d, 0x5abc, 0x4fb4, [0xb1, 0x24, 0xfb, 0xb8, 0x24, 0x88, 0xac, 0xf4]⟩, "PlatformPei"),
  (⟨0x89E549B0, 0x7CFE, 0x449d, [0x9B, 0xA3, 0x10, 0xD8, 0xB2, 0x31, 0x2D, 0x71]⟩, "S3Resume2Pei"),
  (⟨0xEDADEB9D, 0xDDBA, 0x48BD, [0x9D, 0x22, 0xC1, 0xC1, 0x69, 0xC8, 0xC5, 0xC6]⟩, "CpuMpPei"),
  (⟨0xB1517C78, 0xF518, 0x42E5, [0xB2, 0x70, 0xF4, 0xB1, 0xF4, 0x02, 0xE5, 0x3C]⟩, "PvUefiPei"),
  (⟨0x7d9fe32e, 0xa6a9, 0x4cdf, [0xab, 0xff, 0x10, 0xcc, 0x7f, 0x22, 0xe1, 0xc9]⟩, "TpmCommLib"),
  (⟨0xEBC43A46, 0x34AC, 0x4F07, [0xA7, 0xF5, 0xA5, 0x39, 0x46, 0x19, 0x36, 0x1C]⟩, "DxeTcgPhysicalPresenceLib"),
  (⟨0xC595047C, 0x70B3, 0x4731, [0x99, 0xCC, 0xA0, 0x14, 0xE9, 0x56, 0xD7, 0xA7]⟩, "Tpm12CommandLib"),
  (⟨0xBC2B7672, 0xA48B, 0x4d58, [0xB3, 0x9E, 0xAE, 0xE3, 0x70, 0x7B, 0x5A, 0x23]⟩, "Tpm12DeviceLibDTpm"),
  (⟨0x4D8B77D9, 0xE923, 0x48f8, [0xB0, 0x70, 0x40, 0x53, 0xD7, 0x8B, 0x7E, 0x56]⟩, "Tpm12DeviceLibTcg"),
  (⟨0x778CE4F4, 0x36BD, 0x4ae7, [0xB8, 0xF0, 0x10, 0xB4, 0x20, 0xB0, 0xD1, 0x74]⟩, "DxeTpm2MeasureBootLib"),
  (⟨0x601ECB06, 0x7874, 0x489e, [0xA2, 0x80, 0x80, 0x57, 0x80, 0xF6, 0xC8, 0x61]⟩, "DxeTrEEPhysicalPresenceLib"),
  (⟨0x158DC712, 0xF15A, 0x44dc, [0x93, 0xBB, 0x16, 0x75, 0x04, 0x5B, 0xE0, 0x66]⟩, "HashLibBaseCryptoRouterDxe"),
  (⟨0xDDCBCFBA, 0x8EEB, 0x488a, [0x96, 0xD6, 0x09, 0x78, 0x31, 0xA6, 0xE5, 0x0B]⟩, "HashLibBaseCryptoRouterPei"),
  (⟨0x2F572F32, 0x8BE5, 0x4868, [0xBD, 0x1D, 0x74, 0x38, 0xAD, 0x97, 0xDC, 0x27]⟩, "Tpm2CommandLib"),
  (⟨0xBBCB6F85, 0x303C, 0x4eb9, [0x81, 0x82, 0xAF, 0x98, 0xD4, 0xB3, 0x02, 0x0C]⟩, "Tpm2DeviceLibTrEE"),
  (⟨0xE54A3327, 0xA345, 0x4068, [0x88, 0x42, 0x70, 0xAC, 0x0D, 0x51, 0x98, 0x55]⟩, "Tpm2DeviceLibDTpm"),
  (⟨0x286BF25A, 0xC2C3, 0x408c, [0xB3, 0xB4, 0x25, 0xE6, 0x75, 0x8B, 0x73, 0x17]⟩, "Tpm2InstanceLibDTpm"),
  (⟨0xC3D69D87, 0x5200, 0x4aab, [0xA6, 0xDB, 0x25, 0x69, 0xBA, 0x1A, 0x92, 0xFC]⟩, "Tpm2DeviceLibRouterDxe"),
  (⟨0x97CDCF04, 0x4C8E, 0x42fe, [0x80, 0x15, 0x11, 0xCC, 0x8A, 0x6E, 0x9D, 0x81]⟩, "Tpm2DeviceLibRouterPei"),
  (⟨0x1317F0D5, 0x7842, 0x475c, [0xB1, 0xCA, 0x6E, 0xDC, 0x20, 0xDC, 0xBE, 0x7D]⟩, "HashLibTpm2"),
  (⟨0x0AD6C423, 0x4732, 0x4cf3, [0x9C, 0xE3, 0x0A, 0x54, 0x16, 0xD6, 0x34, 0xA5]⟩, "DxeRsa2048Sha256GuidedSectionExtractLib"),
  (⟨0xFD5F2C91, 0x4878, 0x4007, [0xBB, 0xA1, 0x1B, 0x91, 0xDD, 0x32, 0x54, 0x38]⟩, "PeiRsa2048Sha256GuidedSectionExtractLib"),
  (⟨0x9A7A6AB4, 0x9DA6, 0x4aa4, [0x90, 0xCB, 0x6D, 0x4B, 0x79, 0xED, 0xA7, 0xB9]⟩, "HashInstanceLibSha1"),
  (⟨0x5810798A, 0xED30, 0x4080, [0x8D, 0xD7, 0xB9, 0x66, 0x7A, 0x74, 0x8C, 0x02]⟩, "HashInstanceLibSha256"),
  (⟨0xA5C1EF72, 0x9379, 0x4370, [0xB4, 0xC7, 0x0F, 0x51, 0x26, 0xCA, 0xC3, 0x8E]⟩, "TrEEConfigPei"),
  (⟨0xCA5A1928, 0x6523, 0x409d, [0xA9, 0xFE, 0x5D, 0xCC, 0x87, 0x38, 0x72, 0x22]⟩, "TrEEPei"),
  (⟨0x2A7946E3, 0x1AB2, 0x49a9, [0xAC, 0xCB, 0xC6, 0x27, 0x51, 0x39, 0xC1, 0xA5]⟩, "TrEEDxe"),
  (⟨0x3141FD4D, 0xEA02, 0x4a70, [0x9B, 0xCE, 0x97, 0xEE, 0x83, 0x73, 0x19, 0xAC]⟩, "TrEEConfigDxe"),
  (⟨0x162E53E0, 0x6597, 0x40D9, [0x96, 0xD1, 0x8D, 0x13, 0xF0, 0xF6, 0x56, 0xE4]⟩, "TrEEAcpi"),
  (⟨0xD6A2CB7F, 0x6A18, 0x4e2f, [0xB4, 0x3B, 0x99, 0x20, 0xA7, 0x33, 0x70, 0x0A]⟩, "DxeCore"),
  (⟨0xD93CE3D8, 0xA7EB, 0x4730, [0x8C, 0x8E, 0xCC, 0x46, 0x6A, 0x9E, 0xCC, 0x3C]⟩, "ReportStatusCodeRouterRuntimeDxe"),
  (⟨0x6C2004EF, 0x4E0E, 0x4BE4, [0xB1, 0x4C, 0x34, 0x0E, 0xB4, 0xAA, 0x58, 0x91]⟩, "StatusCodeHandlerRuntimeDxe"),
  (⟨0x80CF7257, 0x87AB, 0x47f9, [0xA3, 0xFE, 0xD5, 0x0B, 0x76, 0xD8, 0x95, 0x41]⟩, "PcdDxe"),
  (⟨0xB601F8C4, 0x43B7, 0x4784, [0x95, 0xB1, 0xF4, 0x22, 0x6C, 0xB4, 0x0C, 0xEE]⟩, "RuntimeDxe"),
  (⟨0xF80697E9, 0x7FD6, 0x4665, [0x86, 0x46, 0x88, 0xE3, 0x3E, 0xF7, 0x1D, 0xFC]⟩, "SecurityStubDxe"),
  (⟨0x13AC6DD0, 0x73D0, 0x11D4, [0xB0, 0x6B, 0x00, 0xAA, 0x00, 0xBD, 0x6D, 0xE7]⟩, "EbcDxe"),
  (⟨0x79CA4208, 0xBBA1, 0x4a9a, [0x84, 0x56, 0xE1, 0xE6, 0x6A, 0x81, 0x48, 0x4E]⟩, "Legacy8259"),
  (⟨0xA19B1FE7, 0xC1BC, 0x49F8, [0x87, 0x5F, 0x54, 0xA5, 0xD5, 0x42, 0x44, 0x3F]⟩, "CpuIo2Dxe"),
  (⟨0x1A1E4886, 0x9517, 0x440e, [0x9F, 0xDE, 0x3B, 0xE4, 0x4C, 0xEE, 0x21, 0x36]⟩, "CpuDxe"),
  (⟨0xf2765dec, 0x6b41, 0x11d5, [0x8e, 0x71, 0x00, 0x90, 0x27, 0x07, 0xb3, 0x5e]⟩, "Timer"),
  (⟨0xF6697AC4, 0xA776, 0x4EE1, [0xB6, 0x43, 0x1F, 0xEF, 0xF2, 0xB6, 0x15, 0xBB]⟩, "IncompatiblePciDeviceSupportDxe"),
  (⟨0x11A6EDF6, 0xA9BE, 0x426D, [0xA6, 0xCC, 0xB2, 0x2F, 0xE5, 0x1D, 0x92, 0x24]⟩, "PciHotPlugInitDxe"),
  (⟨0x128FB770, 0x5E79, 0x4176, [0x9E, 0x51, 0x9B, 0xB2, 0x68, 0xA1, 0x7D, 0xD1]⟩, "PciHostBridgeDxe")
]

/-- Rows 50..99 of the static GUID table. -/
def GuidMappings_1 : List (EFI_GUID × String) := [
  (⟨0x93B80004, 0x9FB3, 0x11d4, [0x9A, 0x3A, 0x00, 0x90, 0x27, 0x3F, 0xC1, 0x4D]⟩, "PciBusDxe"),
  (⟨0x4B28E4C7, 0xFF36, 0x4e10, [0x93, 0xCF, 0xA8, 0x21, 0x59, 0xE7, 0x77, 0xC5]⟩, "ResetSystemRuntimeDxe"),
  (⟨0xC8339973, 0xA563, 0x4561, [0xB8, 0x58, 0xD8, 0x47, 0x6F, 0x9D, 0xEF, 0xC4]⟩, "Metronome"),
  (⟨0x378D7B65, 0x8DA9, 0x4773, [0xB6, 0xE4, 0xA4, 0x78, 0x26, 0xA8, 0x33, 0xE1]⟩, "PcRtc"),
  (⟨0xEBF8ED7C, 0x0DD1, 0x4787, [0x84, 0xF1, 0xF4, 0x8D, 0x53, 0x7D, 0xCA, 0xCF]⟩, "DriverHealthManagerDxe"),
  (⟨0x6D33944A, 0xEC75, 0x4855, [0xA5, 0x4D, 0x80, 0x9C, 0x75, 0x24, 0x1F, 0x6C]⟩, "BdsDxe"),
  (⟨0xF74D20EE, 0x37E7, 0x48FC, [0x97, 0xF7, 0x9B, 0x10, 0x47, 0x74, 0x9C, 0x69]⟩, "LogoDxe"),
  (⟨0x462CAA21, 0x7614, 0x4503, [0x83, 0x6E, 0x8A, 0xB6, 0xF4, 0x66, 0x23, 0x31]⟩, "UiApp"),
  (⟨0x33cb97af, 0x6c33, 0x4c42, [0x98, 0x6b, 0x07, 0x58, 0x1f, 0xa3, 0x66, 0xd4]⟩, "BlockMmioToBlockIoDxe"),
  (⟨0x83dd3b39, 0x7caf, 0x4fac, [0xa5, 0x42, 0xe0, 0x50, 0xb7, 0x67, 0xe3, 0xa7]⟩, "VirtioPciDeviceDxe"),
  (⟨0x0170F60C, 0x1D40, 0x4651, [0x95, 0x6D, 0xF0, 0xBD, 0x98, 0x79, 0xD5, 0x27]⟩, "Virtio10"),
  (⟨0x11D92DFB, 0x3CA9, 0x4F93, [0xBA, 0x2E, 0x47, 0x80, 0xED, 0x3E, 0x03, 0xB5]⟩, "VirtioBlkDxe"),
  (⟨0xFAB5D4F4, 0x83C0, 0x4AAF, [0x84, 0x80, 0x44, 0x2D, 0x11, 0xDF, 0x6C, 0xEA]⟩, "VirtioScsiDxe"),
  (⟨0x58E26F0D, 0xCBAC, 0x4BBA, [0xB7, 0x0F, 0x18, 0x22, 0x14, 0x15, 0x66, 0x5A]⟩, "VirtioRngDxe"),
  (⟨0xcf569f50, 0xde44, 0x4f54, [0xb4, 0xd7, 0xf4, 0xae, 0x25, 0xcd, 0xa5, 0x99]⟩, "XenIoPciDxe"),
  (⟨0x565ec8ba, 0xa484, 0x11e3, [0x80, 0x2b, 0xb8, 0xac, 0x6f, 0x7d, 0x65, 0xe6]⟩, "XenBusDxe"),
  (⟨0x8c2487ea, 0x9af3, 0x11e3, [0xb9, 0x66, 0xb8, 0xac, 0x6f, 0x7d, 0x65, 0xe6]⟩, "XenPvBlkDxe"),
  (⟨0xF099D67F, 0x71AE, 0x4c36, [0xB2, 0xA3, 0xDC, 0xEB, 0x0E, 0xB2, 0xB7, 0xD8]⟩, "WatchdogTimer"),
  (⟨0xAD608272, 0xD07F, 0x4964, [0x80, 0x1E, 0x7B, 0xD3, 0xB7, 0x88, 0x86, 0x52]⟩, "MonotonicCounterRuntimeDxe"),
  (⟨0x42857F0A, 0x13F2, 0x4B21, [0x8A, 0x23, 0x53, 0xD3, 0xF7, 0x14, 0xB8, 0x40]⟩, "CapsuleRuntimeDxe"),
  (⟨0x51ccf399, 0x4fdf, 0x4e55, [0xa4, 0x5b, 0xe1, 0x23, 0xf8, 0x4d, 0x45, 0x6a]⟩, "ConPlatformDxe"),
  (⟨0x408edcec, 0xcf6d, 0x477c, [0xa5, 0xa8, 0xb4, 0x84, 0x4e, 0x3d, 0xe2, 0x81]⟩, "ConSplitterDxe"),
  (⟨0xCCCB0C28, 0x4B24, 0x11d5, [0x9A, 0x5A, 0x00, 0x90, 0x27, 0x3F, 0xC1, 0x4D]⟩, "GraphicsConsoleDxe"),
  (⟨0x9E863906, 0xA40F, 0x4875, [0x97, 0x7F, 0x5B, 0x93, 0xFF, 0x23, 0x7F, 0xC6]⟩, "TerminalDxe"),
  (⟨0x9B680FCE, 0xAD6B, 0x4F3A, [0xB6, 0x0B, 0xF5, 0x98, 0x99, 0x00, 0x34, 0x43]⟩, "DevicePathDxe"),
  (⟨0x79E4A61C, 0xED73, 0x4312, [0x94, 0xFE, 0xE3, 0xE7, 0x56, 0x33, 0x62, 0xA9]⟩, "PrintDxe"),
  (⟨0x6B38F7B4, 0xAD98, 0x40e9, [0x90, 0x93, 0xAC, 0xA2, 0xB5, 0xA2, 0x53, 0xC4]⟩, "DiskIoDxe"),
  (⟨0x1FA1F39E, 0xFEFF, 0x4aae, [0xBD, 0x7B, 0x38, 0xA0, 0x70, 0xA3, 0xB6, 0x09]⟩, "PartitionDxe"),
  (⟨0x28A03FF4, 0x12B3, 0x4305, [0xA4, 0x17, 0xBB, 0x1A, 0x4F, 0x94, 0x08, 0x1E]⟩, "RamDiskDxe"),
  (⟨0xCD3BAFB6, 0x50FB, 0x4fe8, [0x8E, 0x4E, 0xAB, 0x74, 0xD2, 0xC1, 0xA6, 0x00]⟩, "EnglishDxe"),
  (⟨0x961578FE, 0xB6B7, 0x44c3, [0xAF, 0x35, 0x6B, 0xC7, 0x05, 0xCD, 0x2B, 0x1F]⟩, "Fat"),
  (⟨0x0167CCC4, 0xD0F7, 0x4f21, [0xA3, 0xEF, 0x9E, 0x64, 0xB7, 0xCD, 0xCE, 0x8B]⟩, "ScsiBus"),
  (⟨0x0A66E322, 0x3740, 0x4cce, [0xAD, 0x62, 0xBD, 0x17, 0x2C, 0xEC, 0xCA, 0x35]⟩, "ScsiDisk"),
  (⟨0x021722D8, 0x522B, 0x4079, [0x85, 0x2A, 0xFE, 0x44, 0xC2, 0xC1, 0x3F, 0x49]⟩, "SataController"),
  (⟨0x5E523CB4, 0xD397, 0x4986, [0x87, 0xBD, 0xA6, 0xDD, 0x8B, 0x22, 0xF4, 0x55]⟩, "AtaAtapiPassThruDxe"),
  (⟨0x19DF145A, 0xB1D4, 0x453f, [0x85, 0x07, 0x38, 0x81, 0x66, 0x76, 0xD7, 0xF6]⟩, "AtaBusDxe"),
  (⟨0x5BE3BDF4, 0x53CF, 0x46a3, [0xA6, 0xA9, 0x73, 0xC3, 0x4A, 0x6E, 0x5E, 0xE3]⟩, "NvmExpressDxe"),
  (⟨0x348C4D62, 0xBFBD, 0x4882, [0x9E, 0xCE, 0xC8, 0x0B, 0xB1, 0xC4, 0x78, 0x3B]⟩, "HiiDatabase"),
  (⟨0xEBf342FE, 0xB1D3, 0x4EF8, [0x95, 0x7C, 0x80, 0x48, 0x60, 0x6F, 0xF6, 0x71]⟩, "SetupBrowser"),
  (⟨0xE660EA85, 0x058E, 0x4b55, [0xA5, 0x4B, 0xF0, 0x2F, 0x83, 0xA2, 0x47, 0x07]⟩, "DisplayEngine"),
  (⟨0x96B5C032, 0xDF4C, 0x4b6e, [0x82, 0x32, 0x43, 0x8D, 0xCF, 0x44, 0x8D, 0x0E]⟩, "NullMemoryTestDxe"),
  (⟨0xe3752948, 0xb9a1, 0x4770, [0x90, 0xc4, 0xdf, 0x41, 0xc3, 0x89, 0x86, 0xbe]⟩, "QemuVideoDxe"),
  (⟨0xD6099B94, 0xCD97, 0x4CC5, [0x87, 0x14, 0x7F, 0x63, 0x12, 0x70, 0x1A, 0x8A]⟩, "VirtioGpuDxe"),
  (⟨0x4CF92BEA, 0x7BC3, 0x4537, [0xAF, 0x26, 0x16, 0xC5, 0xD6, 0xAC, 0x71, 0xBB]⟩, "PvUefiRuntimeDxe"),
  (⟨0x38A0EC22, 0xFBE7, 0x4911, [0x8B, 0xC1, 0x17, 0x6E, 0x0D, 0x6C, 0x1D, 0xBD]⟩, "IsaAcpi"),
  (⟨0x240612B5, 0xA063, 0x11d4, [0x9A, 0x3A, 0x00, 0x90, 0x27, 0x3F, 0xC1, 0x4D]⟩, "IsaBusDxe"),
  (⟨0x93B80003, 0x9FB3, 0x11d4, [0x9A, 0x3A, 0x00, 0x90, 0x27, 0x3F, 0xC1, 0x4D]⟩, "IsaSerialDxe"),
  (⟨0x3DC82376, 0x637B, 0x40a6, [0xA8, 0xFC, 0xA5, 0x65, 0x41, 0x7F, 0x2C, 0x38]⟩, "Ps2KeyboardDxe"),
  (⟨0x0abd8284, 0x6da3, 0x4616, [0x97, 0x1a, 0x83, 0xa5, 0x14, 0x80, 0x67, 0xba]⟩, "IsaFloppyDxe"),
  (⟨0xF9D88642, 0x0737, 0x49bc, [0x81, 0xB5, 0x68, 0x89, 0xCD, 0x57, 0xD9, 0xEA]⟩, "SmbiosDxe")
]

/-- Rows 100..149 of the static GUID table. -/
def GuidMappings_2 : List (EFI_GUID × String) := [
  (⟨0x4110465d, 0x5ff3, 0x4f4b, [0xb5, 0x80, 0x24, 0xed, 0x0d, 0x06, 0x74, 0x7a]⟩, "SmbiosPlatformDxe"),
  (⟨0x9622E42C, 0x8E38, 0x4a08, [0x9E, 0x8F, 0x54, 0xF7, 0x84, 0x65, 0x2F, 0x6B]⟩, "AcpiTableDxe"),
  (⟨0x49970331, 0xE3FA, 0x4637, [0x9A, 0xBC, 0x3B, 0x78, 0x68, 0x67, 0x69, 0x70]⟩, "AcpiPlatform"),
  (⟨0x7E374E25, 0x8E01, 0x4FEE, [0x87, 0xF2, 0x39, 0x0C, 0x23, 0xC6, 0x06, 0xCD]⟩, "PlatformAcpiTables"),
  (⟨0xBDCE85BB, 0xFBAA, 0x4f4e, [0x92, 0x64, 0x50, 0x1A, 0x2C, 0x24, 0x95, 0x81]⟩, "S3SaveStateDxe"),
  (⟨0xFA20568B, 0x548B, 0x4b2b, [0x81, 0xEF, 0x1B, 0xA0, 0x8D, 0x4A, 0x3C, 0xEC]⟩, "BootScriptExecutorDxe"),
  (⟨0xB8E62775, 0xBB0A, 0x43f0, [0xA8, 0x43, 0x5B, 0xE8, 0xB1, 0x4F, 0x8C, 0xCD]⟩, "BootGraphicsResourceTableDxe"),
  (⟨0xA2f436EA, 0xA127, 0x4EF8, [0x95, 0x7C, 0x80, 0x48, 0x60, 0x6F, 0xF6, 0x70]⟩, "SnpDxe"),
  (⟨0xA210F973, 0x229D, 0x4f4d, [0xAA, 0x37, 0x98, 0x95, 0xE6, 0xC9, 0xEA, 0xBA]⟩, "DpcDxe"),
  (⟨0x025BBFC7, 0xE6A9, 0x4b8b, [0x82, 0xAD, 0x68, 0x15, 0xA1, 0xAE, 0xAF, 0x4A]⟩, "MnpDxe"),
  (⟨0xE4F61863, 0xFE2C, 0x4b56, [0xA8, 0xF4, 0x08, 0x51, 0x9B, 0xC4, 0x39, 0xDF]⟩, "VlanConfigDxe"),
  (⟨0x529D3F93, 0xE8E9, 0x4e73, [0xB1, 0xE1, 0xBD, 0xF6, 0xA9, 0xD5, 0x01, 0x13]⟩, "ArpDxe"),
  (⟨0x94734718, 0x0BBC, 0x47fb, [0x96, 0xA5, 0xEE, 0x7A, 0x5A, 0xE6, 0xA2, 0xAD]⟩, "Dhcp4Dxe"),
  (⟨0x9FB1A1F3, 0x3B71, 0x4324, [0xB3, 0x9A, 0x74, 0x5C, 0xBB, 0x01, 0x5F, 0xFF]⟩, "Ip4Dxe"),
  (⟨0xDC3641B8, 0x2FA8, 0x4ed3, [0xBC, 0x1F, 0xF9, 0x96, 0x2A, 0x03, 0x45, 0x4B]⟩, "Mtftp4Dxe"),
  (⟨0x6d6963ab, 0x906d, 0x4a65, [0xa7, 0xca, 0xbd, 0x40, 0xe5, 0xd6, 0xaf, 0x2b]⟩, "Udp4Dxe"),
  (⟨0x6d6963ab, 0x906d, 0x4a65, [0xa7, 0xca, 0xbd, 0x40, 0xe5, 0xd6, 0xaf, 0x4d]⟩, "Tcp4Dxe"),
  (⟨0x3B1DEAB5, 0xC75D, 0x442e, [0x92, 0x38, 0x8E, 0x2F, 0xFB, 0x62, 0xB0, 0xBB]⟩, "UefiPxe4BcDxe"),
  (⟨0x4579B72D, 0x7EC4, 0x4dd4, [0x84, 0x86, 0x08, 0x3C, 0x86, 0xB1, 0x82, 0xA7]⟩, "IScsi4Dxe"),
  (⟨0xA92CDB4B, 0x82F1, 0x4E0B, [0xA5, 0x16, 0x8A, 0x65, 0x5D, 0x37, 0x15, 0x24]⟩, "VirtioNetDxe"),
  (⟨0x2FB92EFA, 0x2EE0, 0x4bae, [0x9E, 0xB6, 0x74, 0x64, 0x12, 0x5E, 0x1E, 0xF7]⟩, "UhciDxe"),
  (⟨0xBDFE430E, 0x8F2A, 0x4db0, [0x99, 0x91, 0x6F, 0x85, 0x65, 0x94, 0x77, 0x7E]⟩, "EhciDxe"),
  (⟨0xB7F50E91, 0xA759, 0x412c, [0xAD, 0xE4, 0xDC, 0xD0, 0x3E, 0x7F, 0x7C, 0x28]⟩, "XhciDxe"),
  (⟨0x240612B7, 0xA063, 0x11d4, [0x9A, 0x3A, 0x00, 0x90, 0x27, 0x3F, 0xC1, 0x4D]⟩, "UsbBusDxe"),
  (⟨0x2D2E62CF, 0x9ECF, 0x43b7, [0x82, 0x19, 0x94, 0xE7, 0xFC, 0x71, 0x3D, 0xFE]⟩, "UsbKbDxe"),
  (⟨0x9FB4B4A7, 0x42C0, 0x4bcd, [0x85, 0x40, 0x9B, 0xCC, 0x67, 0x11, 0xF8, 0x3E]⟩, "UsbMassStorageDxe"),
  (⟨0x0B04B2ED, 0x861C, 0x42cd, [0xA2, 0x2F, 0xC3, 0xAA, 0xFA, 0xCC, 0xB8, 0x96]⟩, "BiosVideoDxe"),
  (⟨0xF122A15C, 0xC10B, 0x4d54, [0x8F, 0x48, 0x60, 0xF4, 0xF0, 0x6D, 0xD1, 0xAD]⟩, "LegacyBiosDxe"),
  (⟨0x1547B4F3, 0x3E8A, 0x4FEF, [0x81, 0xC8, 0x32, 0x8E, 0xD6, 0x47, 0xAB, 0x1A]⟩, "Csm16"),
  (⟨0x7C04A583, 0x9E3E, 0x4f1c, [0xAD, 0x65, 0xE0, 0x52, 0x68, 0xD0, 0xB4, 0xD1]⟩, "Shell"),
  (⟨0xD9DCC5DF, 0x4007, 0x435E, [0x90, 0x98, 0x89, 0x70, 0x93, 0x55, 0x04, 0xB2]⟩, "PlatformDxe"),
  (⟨0x733cbac2, 0xb23f, 0x4b92, [0xbc, 0x8e, 0xfb, 0x01, 0xce, 0x59, 0x07, 0xb7]⟩, "FvbServicesRuntimeDxe"),
  (⟨0x22dc2b60, 0xfe40, 0x42ac, [0xb0, 0x1f, 0x3a, 0xb1, 0xfa, 0xd9, 0xaa, 0xd8]⟩, "EmuVariableFvbRuntimeDxe"),
  (⟨0xFE5CEA76, 0x4F72, 0x49e8, [0x98, 0x6F, 0x2C, 0xD8, 0x99, 0xDF, 0xFE, 0x5D]⟩, "FaultTolerantWriteDxe"),
  (⟨0x40a7a3be, 0x1e67, 0x4b86, [0x92, 0xc4, 0x72, 0xe3, 0xd3, 0x2a, 0x20, 0x7a]⟩, "GSetup"),
  (⟨0xD3B46F3B, 0xD441, 0x1244, [0x9A, 0x12, 0x00, 0x12, 0x27, 0x3F, 0xC1, 0x4D]⟩, "gEfiXenInfoGuid"),
  (⟨0x3E745226, 0x9818, 0x45B6, [0xA2, 0xAC, 0xD7, 0xCD, 0x0E, 0x8B, 0xA2, 0xBC]⟩, "gEfiUsb2HcProtocolGuid"),
  (⟨0xEA7CA24B, 0xDED5, 0x4DAD, [0xA3, 0x89, 0xBF, 0x82, 0x7E, 0x8F, 0x9B, 0x38]⟩, "gEfiPeiFirmwareVolumeInfo2PpiGuid"),
  (⟨0x0AE8CE5D, 0xE448, 0x4437, [0xA8, 0xD7, 0xEB, 0xF5, 0xF1, 0x94, 0xF7, 0x31]⟩, "gEfiDxeIplPpiGuid"),
  (⟨0x0C0F3B43, 0x44DE, 0x4907, [0xB4, 0x78, 0x22, 0x5F, 0x6F, 0x62, 0x89, 0xDC]⟩, "gUsbKeyboardLayoutPackageGuid"),
  (⟨0x1B45CC0A, 0x156A, 0x428A, [0xAF, 0x62, 0x49, 0x86, 0x4D, 0xA0, 0xE6, 0xE6]⟩, "gPeiAprioriFileNameGuid"),
  (⟨0x783658A3, 0x4172, 0x4421, [0xA2, 0x99, 0xE0, 0x09, 0x07, 0x9C, 0x0C, 0xB4]⟩, "gEfiLegacyBiosPlatformProtocolGuid"),
  (⟨0xDBE23AA9, 0xA345, 0x4B97, [0x85, 0xB6, 0xB2, 0x26, 0xF1, 0x61, 0x73, 0x89]⟩, "gEfiTemporaryRamSupportPpiGuid"),
  (⟨0x0379BE4E, 0xD706, 0x437D, [0xB0, 0x37, 0xED, 0xB8, 0x2F, 0xB7, 0x72, 0xA4]⟩, "gEfiDevicePathUtilitiesProtocolGuid"),
  (⟨0x93039971, 0x8545, 0x4B04, [0xB4, 0x5E, 0x32, 0xEB, 0x83, 0x26, 0x04, 0x0E]⟩, "gEfiHiiPlatformSetupFormsetGuid"),
  (⟨0x964E5B21, 0x6459, 0x11D2, [0x8E, 0x39, 0x00, 0xA0, 0xC9, 0x69, 0x72, 0x3B]⟩, "gEfiBlockIoProtocolGuid"),
  (⟨0xEF398D58, 0x9DFD, 0x4103, [0xBF, 0x94, 0x78, 0xC6, 0xF4, 0xFE, 0x71, 0x2F]⟩, "gEfiPeiResetPpiGuid"),
  (⟨0x309DE7F1, 0x7F5E, 0x4ACE, [0xB4, 0x9C, 0x53, 0x1B, 0xE5, 0xAA, 0x95, 0xEF]⟩, "gEfiGenericMemTestProtocolGuid"),
  (⟨0x09576E93, 0x6D3F, 0x11D2, [0x8E, 0x39, 0x00, 0xA0, 0xC9, 0x69, 0x72, 0x3B]⟩, "gEfiFileSystemInfoGuid"),
  (⟨0xAD61F191, 0xAE5F, 0x4C0E, [0xB9, 0xFA, 0xE8, 0x69, 0xD2, 0x88, 0xC6, 0x4F]⟩, "gEfiCpuIo2ProtocolGuid")
]

/-- Rows 150..199 of the static GUID table. -/
def GuidMappings_3 : List (EFI_GUID × String) := [
  (⟨0xF36FF770, 0xA7E1, 0x42CF, [0x9E, 0xD2, 0x56, 0xF0, 0xF2, 0x71, 0xF4, 0x4C]⟩, "gEfiManagedNetworkServiceBindingProtocolGuid"),
  (⟨0xF894643D, 0xC449, 0x42D1, [0x8E, 0xA8, 0x85, 0xBD, 0xD8, 0xC6, 0x5B, 0xDE]⟩, "gEfiPeiMemoryDiscoveredPpiGuid"),
  (⟨0x8A219718, 0x4EF5, 0x4761, [0x91, 0xC8, 0xC0, 0xF0, 0x4B, 0xDA, 0x9E, 0x56]⟩, "gEfiDhcp4ProtocolGuid"),
  (⟨0x5B1B31A1, 0x9562, 0x11D2, [0x8E, 0x3F, 0x00, 0xA0, 0xC9, 0x69, 0x72, 0x3B]⟩, "gEfiLoadedImageProtocolGuid"),
  (⟨0x03C4E603, 0xAC28, 0x11D3, [0x9A, 0x2D, 0x00, 0x90, 0x27, 0x3F, 0xC1, 0x4D]⟩, "gEfiPxeBaseCodeProtocolGuid"),
  (⟨0xF2FD1544, 0x9794, 0x4A2C, [0x99, 0x2E, 0xE5, 0xBB, 0xCF, 0x20, 0xE3, 0x94]⟩, "gEfiSmbios3TableGuid"),
  (⟨0xDB9A1E3D, 0x45CB, 0x4ABB, [0x85, 0x3B, 0xE5, 0x38, 0x7F, 0xDB, 0x2E, 0x2D]⟩, "gEfiLegacyBiosProtocolGuid"),
  (⟨0x5B446ED1, 0xE30B, 0x4FAA, [0x87, 0x1A, 0x36, 0x54, 0xEC, 0xA3, 0x60, 0x80]⟩, "gEfiIp4Config2ProtocolGuid"),
  (⟨0x8F644FA9, 0xE850, 0x4DB1, [0x9C, 0xE2, 0x0B, 0x44, 0x69, 0x8E, 0x8D, 0xA4]⟩, "gEfiFirmwareVolumeBlock2ProtocolGuid"),
  (⟨0xB7DFB4E1, 0x052F, 0x449F, [0x87, 0xBE, 0x98, 0x18, 0xFC, 0x91, 0xB7, 0x33]⟩, "gEfiRuntimeArchProtocolGuid"),
  (⟨0xA59E8FCF, 0xBDA0, 0x43BB, [0x90, 0xB1, 0xD3, 0x73, 0x2E, 0xCA, 0xA8, 0x77]⟩, "gEfiScsiPassThruProtocolGuid"),
  (⟨0xC54B425F, 0xAA79, 0x48B4, [0x98, 0x1F, 0x99, 0x8B, 0x3C, 0x4B, 0x64, 0x1C]⟩, "gTrEEConfigFormSetGuid"),
  (⟨0xFA920010, 0x6785, 0x4941, [0xB6, 0xEC, 0x49, 0x8C, 0x57, 0x9F, 0x16, 0x0A]⟩, "gVirtioDeviceProtocolGuid"),
  (⟨0x9BBE29E9, 0xFDA1, 0x41EC, [0xAD, 0x52, 0x45, 0x22, 0x13, 0x74, 0x2D, 0x2E]⟩, "gEdkiiFormDisplayEngineProtocolGuid"),
  (⟨0x7235C51C, 0x0C80, 0x4CAB, [0x87, 0xAC, 0x3B, 0x08, 0x4A, 0x63, 0x04, 0xB1]⟩, "gOvmfPlatformConfigGuid"),
  (⟨0x2B2F68D6, 0x0CD2, 0x44CF, [0x8E, 0x8B, 0xBB, 0xA2, 0x0B, 0x1B, 0x5B, 0x75]⟩, "gEfiUsbIoProtocolGuid"),
  (⟨0x8868E871, 0xE4F1, 0x11D3, [0xBC, 0x22, 0x00, 0x80, 0xC7, 0x3C, 0x88, 0x81]⟩, "gEfiAcpiTableGuid"),
  (⟨0x158DEF5A, 0xF656, 0x419C, [0xB0, 0x27, 0x7A, 0x31, 0x92, 0xC0, 0x79, 0xD2]⟩, "gShellVariableGuid"),
  (⟨0xEB9D2D30, 0x2D88, 0x11D3, [0x9A, 0x16, 0x00, 0x90, 0x27, 0x3F, 0xC1, 0x4D]⟩, "gEfiAcpi10TableGuid"),
  (⟨0x49EDB1C1, 0xBF21, 0x4761, [0xBB, 0x12, 0xEB, 0x00, 0x31, 0xAA, 0xBB, 0x39]⟩, "gEfiPeiFirmwareVolumeInfoPpiGuid"),
  (⟨0x6CC45765, 0xCCE4, 0x42FD, [0xBC, 0x56, 0x01, 0x1A, 0xAA, 0xC6, 0xC9, 0xA8]⟩, "gEfiPeiReset2PpiGuid"),
  (⟨0x0053D9D6, 0x2659, 0x4599, [0xA2, 0x6B, 0xEF, 0x45, 0x36, 0xE6, 0x31, 0xA9]⟩, "gShellAliasGuid"),
  (⟨0x7081E22F, 0xCAC6, 0x4053, [0x94, 0x68, 0x67, 0x57, 0x82, 0xCF, 0x88, 0xE5]⟩, "gEfiEventDxeDispatchGuid"),
  (⟨0x24A2D66F, 0xEEDD, 0x4086, [0x90, 0x42, 0xF2, 0x6E, 0x47, 0x97, 0xEE, 0x69]⟩, "gRootBridgesConnectedEventGroupGuid"),
  (⟨0x3BD2F4EC, 0xE524, 0x46E4, [0xA9, 0xD8, 0x51, 0x01, 0x17, 0x42, 0x55, 0x62]⟩, "gEfiHiiStandardFormGuid"),
  (⟨0x02CE967A, 0xDD7E, 0x4FFC, [0x9E, 0xE7, 0x81, 0x0C, 0xF0, 0x47, 0x08, 0x80]⟩, "gEfiEndOfDxeEventGroupGuid"),
  (⟨0xCF8034BE, 0x6768, 0x4D8B, [0xB7, 0x39, 0x7C, 0xCE, 0x68, 0x3A, 0x9F, 0xBE]⟩, "gEfiPciHostBridgeResourceAllocationProtocolGuid"),
  (⟨0x107A772C, 0xD5E1, 0x11D4, [0x9A, 0x46, 0x00, 0x90, 0x27, 0x3F, 0xC1, 0x4D]⟩, "gEfiComponentNameProtocolGuid"),
  (⟨0xA77B2472, 0xE282, 0x4E9F, [0xA2, 0x45, 0xC2, 0xC0, 0xE2, 0x7B, 0xBC, 0xC1]⟩, "gEfiBlockIo2ProtocolGuid"),
  (⟨0x5C198761, 0x16A8, 0x4E69, [0x97, 0x2C, 0x89, 0xD6, 0x79, 0x54, 0xF8, 0x1D]⟩, "gEfiDriverSupportedEfiVersionProtocolGuid"),
  (⟨0x2FE800BE, 0x8F01, 0x4AA6, [0x94, 0x6B, 0xD7, 0x13, 0x88, 0xE1, 0x83, 0x3F]⟩, "gEfiMtftp4ServiceBindingProtocolGuid"),
  (⟨0x8B01E5B6, 0x4F19, 0x46E8, [0xAB, 0x93, 0x1C, 0x53, 0x67, 0x1B, 0x90, 0xCC]⟩, "gEfiTpmDeviceInstanceTpm12Guid"),
  (⟨0xCEAB683C, 0xEC56, 0x4A2D, [0xA9, 0x06, 0x40, 0x53, 0xFA, 0x4E, 0x9C, 0x16]⟩, "gEfiTemporaryRamDonePpiGuid"),
  (⟨0x286BF25A, 0xC2C3, 0x408C, [0xB3, 0xB4, 0x25, 0xE6, 0x75, 0x8B, 0x73, 0x17]⟩, "gEfiTpmDeviceInstanceTpm20DtpmGuid"),
  (⟨0xD432A67F, 0x14DC, 0x484B, [0xB3, 0xBB, 0x3F, 0x02, 0x91, 0x84, 0x93, 0x27]⟩, "gEfiDiskInfoProtocolGuid"),
  (⟨0x1A1241E6, 0x8F19, 0x41A9, [0xBC, 0x0E, 0xE8, 0xEF, 0x39, 0xE0, 0x65, 0x46]⟩, "gEfiHiiImageExProtocolGuid"),
  (⟨0x6DCBD5ED, 0xE82D, 0x4C44, [0xBD, 0xA1, 0x71, 0x94, 0x19, 0x9A, 0xD9, 0x2A]⟩, "gEfiFmpCapsuleGuid"),
  (⟨0x1E5668E2, 0x8481, 0x11D4, [0xBC, 0xF1, 0x00, 0x80, 0xC7, 0x3C, 0x88, 0x81]⟩, "gEfiVariableArchProtocolGuid"),
  (⟨0x0EF98D3A, 0x3E33, 0x497A, [0xA4, 0x01, 0x77, 0xBE, 0x3E, 0xB7, 0x4F, 0x38]⟩, "gEfiAcpiS3ContextGuid"),
  (⟨0x6441F818, 0x6362, 0x4E44, [0xB5, 0x70, 0x7D, 0xBA, 0x31, 0xDD, 0x24, 0x53]⟩, "gEfiVariableWriteArchProtocolGuid"),
  (⟨0xB9D4C360, 0xBCFB, 0x4F9B, [0x92, 0x98, 0x53, 0xC1, 0x36, 0x98, 0x22, 0x58]⟩, "gEfiFormBrowser2ProtocolGuid"),
  (⟨0x7AB33A91, 0xACE5, 0x4326, [0xB5, 0x72, 0xE7, 0xEE, 0x33, 0xD3, 0x9F, 0x16]⟩, "gEfiManagedNetworkProtocolGuid"),
  (⟨0x2CA88B53, 0xD296, 0x4080, [0xA4, 0xA5, 0xCA, 0xD9, 0xBA, 0xE2, 0x4B, 0x09]⟩, "gLoadFixedAddressConfigurationTableGuid"),
  (⟨0x78BEE926, 0x692F, 0x48FD, [0x9E, 0xDB, 0x01, 0x42, 0x2E, 0xF0, 0xD7, 0xAB]⟩, "gEfiEventMemoryMapChangeGuid"),
  (⟨0x0FD96974, 0x23AA, 0x4CDC, [0xB9, 0xCB, 0x98, 0xD1, 0x77, 0x50, 0x32, 0x2A]⟩, "gEfiHiiStringProtocolGuid"),
  (⟨0x7EE2BD44, 0x3DA0, 0x11D4, [0x9A, 0x38, 0x00, 0x90, 0x27, 0x3F, 0xC1, 0x4D]⟩, "gEfiIsaIoProtocolGuid"),
  (⟨0x605EA650, 0xC65C, 0x42E1, [0xBA, 0x80, 0x91, 0xA5, 0x2A, 0xB6, 0x18, 0xC6]⟩, "gEfiEndOfPeiSignalPpiGuid"),
  (⟨0x5CB5C776, 0x60D5, 0x45EE, [0x88, 0x3C, 0x45, 0x27, 0x08, 0xCD, 0x74, 0x3F]⟩, "gEfiLoadPeImageProtocolGuid"),
  (⟨0xF541796D, 0xA62E, 0x4954, [0xA7, 0x75, 0x95, 0x84, 0xF6, 0x1B, 0x9C, 0xDD]⟩, "gEfiTcgProtocolGuid"),
  (⟨0xC88B0B6D, 0x0DFC, 0x49A7, [0x9C, 0xB4, 0x49, 0x07, 0x4B, 0x4C, 0x3A, 0x78]⟩, "gEfiStorageSecurityCommandProtocolGuid")
]

/-- Rows 200..249 of the static GUID table. -/
def GuidMappings_4 : List (EFI_GUID × String) := [
  (⟨0x3C7D193C, 0x682C, 0x4C14, [0xA6, 0x8F, 0x55, 0x2D, 0xEA, 0x4F, 0x43, 0x7E]⟩, "gPcdDataBaseSignatureGuid"),
  (⟨0x59324945, 0xEC44, 0x4C0D, [0xB1, 0xCD, 0x9D, 0xB1, 0x39, 0xDF, 0x07, 0x0C]⟩, "gEfiIScsiInitiatorNameProtocolGuid"),
  (⟨0x78E4D245, 0xCD4D, 0x4A05, [0xA2, 0xBA, 0x47, 0x43, 0xE8, 0x6C, 0xFC, 0xAB]⟩, "gEfiSecurityPolicyProtocolGuid"),
  (⟨0x00720665, 0x67EB, 0x4A99, [0xBA, 0xF7, 0xD3, 0xC3, 0x3A, 0x1C, 0x7C, 0xC9]⟩, "gEfiTcp4ServiceBindingProtocolGuid"),
  (⟨0xA60C6B59, 0xE459, 0x425D, [0x9C, 0x69, 0x0B, 0xCC, 0x9C, 0xB2, 0x7D, 0x81]⟩, "gEfiGetPcdInfoPpiGuid"),
  (⟨0x1F73B18D, 0x4630, 0x43C1, [0xA1, 0xDE, 0x6F, 0x80, 0x85, 0x5D, 0x7D, 0xA4]⟩, "gEdkiiFormBrowserExProtocolGuid"),
  (⟨0xAAEACCFD, 0xF27B, 0x4C17, [0xB6, 0x10, 0x75, 0xCA, 0x1F, 0x2D, 0xFB, 0x52]⟩, "gEfiEbcVmTestProtocolGuid"),
  (⟨0xD719B2CB, 0x3D3A, 0x4596, [0xA3, 0xBC, 0xDA, 0xD0, 0x0E, 0x67, 0x65, 0x6F]⟩, "gEfiImageSecurityDatabaseGuid"),
  (⟨0xBC62157E, 0x3E33, 0x4FEC, [0x99, 0x20, 0x2D, 0x3B, 0x36, 0xD7, 0x50, 0xDF]⟩, "gEfiLoadedImageDevicePathProtocolGuid"),
  (⟨0x151C8EAE, 0x7F2C, 0x472C, [0x9E, 0x54, 0x98, 0x28, 0x19, 0x4F, 0x6A, 0x88]⟩, "gEfiDiskIo2ProtocolGuid"),
  (⟨0x6EFAC84F, 0x0AB0, 0x4747, [0x81, 0xBE, 0x85, 0x55, 0x62, 0x59, 0x04, 0x49]⟩, "gXenIoProtocolGuid"),
  (⟨0x0A8BADD5, 0x03B8, 0x4D19, [0xB1, 0x28, 0x7B, 0x8F, 0x0E, 0xDA, 0xA5, 0x96]⟩, "gEfiConfigKeywordHandlerProtocolGuid"),
  (⟨0x65530BC7, 0xA359, 0x410F, [0xB0, 0x10, 0x5A, 0xAD, 0xC7, 0xEC, 0x2B, 0x62]⟩, "gEfiTcp4ProtocolGuid"),
  (⟨0x914AEBE7, 0x4635, 0x459B, [0xAA, 0x1C, 0x11, 0xE2, 0x19, 0xB0, 0x3A, 0x10]⟩, "gEfiMdePkgTokenSpaceGuid"),
  (⟨0x9042A9DE, 0x23DC, 0x4A38, [0x96, 0xFB, 0x7A, 0xDE, 0xD0, 0x80, 0x51, 0x6A]⟩, "gEfiGraphicsOutputProtocolGuid"),
  (⟨0x05AD34BA, 0x6F02, 0x4214, [0x95, 0x2E, 0x4D, 0xA0, 0x39, 0x8E, 0x2B, 0xB9]⟩, "gEfiDxeServicesTableGuid"),
  (⟨0x26BACCB3, 0x6F42, 0x11D4, [0xBC, 0xE7, 0x00, 0x80, 0xC7, 0x3C, 0x88, 0x81]⟩, "gEfiTimerArchProtocolGuid"),
  (⟨0x6E056FF9, 0xC695, 0x4364, [0x9E, 0x2C, 0x61, 0x26, 0xF5, 0xCE, 0xEA, 0xAE]⟩, "gEfiPeiFirmwareVolumeInfoMeasurementExcludedPpiGuid"),
  (⟨0x3152BCA5, 0xEADE, 0x433D, [0x86, 0x2E, 0xC0, 0x1C, 0xDC, 0x29, 0x1F, 0x44]⟩, "gEfiRngProtocolGuid"),
  (⟨0x03583FF6, 0xCB36, 0x4940, [0x94, 0x7E, 0xB9, 0xB3, 0x9F, 0x4A, 0xFA, 0xF7]⟩, "gEfiSmbiosProtocolGuid"),
  (⟨0x88C9D306, 0x0900, 0x4EB5, [0x82, 0x60, 0x3E, 0x2D, 0xBE, 0xDA, 0x1F, 0x89]⟩, "gPeiPostScriptTablePpiGuid"),
  (⟨0xEE16160A, 0xE8BE, 0x47A6, [0x82, 0x0A, 0xC6, 0x90, 0x0D, 0xB0, 0x25, 0x0A]⟩, "gEfiPeiMpServicesPpiGuid"),
  (⟨0xE701458C, 0x4900, 0x4CA5, [0xB7, 0x72, 0x3D, 0x37, 0x94, 0x9F, 0x79, 0x27]⟩, "gStatusCodeCallbackGuid"),
  (⟨0xBD445D79, 0xB7AD, 0x4F04, [0x9A, 0xD8, 0x29, 0xBD, 0x20, 0x40, 0xEB, 0x3C]⟩, "gEfiLockBoxProtocolGuid"),
  (⟨0x13AC6DD1, 0x73D0, 0x11D4, [0xB0, 0x6B, 0x00, 0xAA, 0x00, 0xBD, 0x6D, 0xE7]⟩, "gEfiEbcProtocolGuid"),
  (⟨0x143B7632, 0xB81B, 0x4CB7, [0xAB, 0xD3, 0xB6, 0x25, 0xA5, 0xB9, 0xBF, 0xFE]⟩, "gEfiExtScsiPassThruProtocolGuid"),
  (⟨0x786EC0AC, 0x65AE, 0x4D1B, [0xB1, 0x37, 0x0D, 0x11, 0x0A, 0x48, 0x37, 0x97]⟩, "gIScsiCHAPAuthInfoGuid"),
  (⟨0x9B942747, 0x154E, 0x4D29, [0xA4, 0x36, 0xBF, 0x71, 0x00, 0xC8, 0xB5, 0x3B]⟩, "gIp4Config2NvDataGuid"),
  (⟨0x15853D7C, 0x3DDF, 0x43E0, [0xA1, 0xCB, 0xEB, 0xF8, 0x5B, 0x8F, 0x87, 0x2C]⟩, "gEfiDeferredImageLoadProtocolGuid"),
  (⟨0x79CB58C4, 0xAC51, 0x442F, [0xAF, 0xD7, 0x98, 0xE4, 0x7D, 0x2E, 0x99, 0x08]⟩, "gEfiBootScriptExecutorContextGuid"),
  (⟨0x31A6406A, 0x6BDF, 0x4E46, [0xB2, 0xA2, 0xEB, 0xAA, 0x89, 0xC4, 0x09, 0x20]⟩, "gEfiHiiImageProtocolGuid"),
  (⟨0x8BE4DF61, 0x93CA, 0x11D2, [0xAA, 0x0D, 0x00, 0xE0, 0x98, 0x03, 0x2B, 0x8C]⟩, "gEfiGlobalVariableGuid"),
  (⟨0x5BE40F57, 0xFA68, 0x4610, [0xBB, 0xBF, 0xE9, 0xC5, 0xFC, 0xDA, 0xD3, 0x65]⟩, "gGetPcdInfoProtocolGuid"),
  (⟨0x9D9A39D8, 0xBD42, 0x4A73, [0xA4, 0xD5, 0x8E, 0xE9, 0x4B, 0xE1, 0x13, 0x80]⟩, "gEfiDhcp4ServiceBindingProtocolGuid"),
  (⟨0xFB6D9542, 0x612D, 0x4F45, [0x87, 0x2F, 0x5C, 0xFF, 0x52, 0xE9, 0x3D, 0xCF]⟩, "gEfiPeiRecoveryModulePpiGuid"),
  (⟨0x13FA7698, 0xC831, 0x49C7, [0x87, 0xEA, 0x8F, 0x43, 0xFC, 0xC2, 0x51, 0x96]⟩, "gEfiEventVirtualAddressChangeGuid"),
  (⟨0xEA296D92, 0x0B69, 0x423C, [0x8C, 0x28, 0x33, 0xB4, 0xE0, 0xA9, 0x12, 0x68]⟩, "gPcdDataBaseHobGuid"),
  (⟨0xB9E0ABFE, 0x5979, 0x4914, [0x97, 0x7F, 0x6D, 0xEE, 0x78, 0xC2, 0x78, 0xA6]⟩, "gEfiPeiLoadFilePpiGuid"),
  (⟨0x9E9F374B, 0x8F16, 0x4230, [0x98, 0x24, 0x58, 0x46, 0xEE, 0x76, 0x6A, 0x97]⟩, "gEfiSecPlatformInformation2PpiGuid"),
  (⟨0x4C19049F, 0x4137, 0x4DD3, [0x9C, 0x10, 0x8B, 0x97, 0xA8, 0x3F, 0xFD, 0xFA]⟩, "gEfiMemoryTypeInformationGuid"),
  (⟨0x83F01464, 0x99BD, 0x45E5, [0xB3, 0x83, 0xAF, 0x63, 0x05, 0xD8, 0xE9, 0xE6]⟩, "gEfiUdp4ServiceBindingProtocolGuid"),
  (⟨0xB5B35764, 0x460C, 0x4A06, [0x99, 0xFC, 0x77, 0xA1, 0x7C, 0x1B, 0x5C, 0xEB]⟩, "gEfiPciOverrideProtocolGuid"),
  (⟨0xA030D115, 0x54DD, 0x447B, [0x90, 0x64, 0xF2, 0x06, 0x88, 0x3D, 0x7C, 0xCC]⟩, "gPeiTpmInitializationDonePpiGuid"),
  (⟨0x60FF8964, 0xE906, 0x41D0, [0xAF, 0xED, 0xF2, 0x41, 0xE9, 0x74, 0xE0, 0x8E]⟩, "gEfiDxeSmmReadyToLockProtocolGuid"),
  (⟨0x1DA97072, 0xBDDC, 0x4B30, [0x99, 0xF1, 0x72, 0xA0, 0xB5, 0x6F, 0xFF, 0x2A]⟩, "gEfiMonotonicCounterArchProtocolGuid"),
  (⟨0xD79DF6B0, 0xEF44, 0x43BD, [0x97, 0x97, 0x43, 0xE9, 0x3B, 0xCF, 0x5F, 0xA8]⟩, "gVlanConfigFormSetGuid"),
  (⟨0xF4CCBFB7, 0xF6E0, 0x47FD, [0x9D, 0xD4, 0x10, 0xA8, 0xF1, 0x50, 0xC1, 0x91]⟩, "gEfiSmmBase2ProtocolGuid"),
  (⟨0x6F8C2B35, 0xFEF4, 0x448D, [0x82, 0x56, 0xE1, 0x1B, 0x19, 0xD6, 0x10, 0x77]⟩, "gEfiSecPlatformInformationPpiGuid"),
  (⟨0x9E66F251, 0x727C, 0x418C, [0xBF, 0xD6, 0xC2, 0xB4, 0x25, 0x28, 0x18, 0xEA]⟩, "gEfiHiiImageDecoderProtocolGuid"),
  (⟨0x3FDDA605, 0xA76E, 0x4F46, [0xAD, 0x29, 0x12, 0xF4, 0x53, 0x1B, 0x3D, 0x08]⟩, "gEfiMpServiceProtocolGuid")
]

/-- Rows 250..299 of the static GUID table. -/
def GuidMappings_5 : List (EFI_GUID × String) := [
  (⟨0x01F34D25, 0x4DE2, 0x23AD, [0x3F, 0xF3, 0x36, 0x35, 0x3F, 0xF3, 0x23, 0xF1]⟩, "gEfiPeiPcdPpiGuid"),
  (⟨0x711C703F, 0xC285, 0x4B10, [0xA3, 0xB0, 0x36, 0xEC, 0xBD, 0x3C, 0x8B, 0xE2]⟩, "gEfiCapsuleVendorGuid"),
  (⟨0x171E9188, 0x31D3, 0x40F5, [0xB1, 0x0C, 0x53, 0x9B, 0x2D, 0xB9, 0x40, 0xCD]⟩, "gEfiShellPkgTokenSpaceGuid"),
  (⟨0x1D85CD7F, 0xF43D, 0x11D2, [0x9A, 0x0C, 0x00, 0x90, 0x27, 0x3F, 0xC1, 0x4D]⟩, "gEfiUnicodeCollationProtocolGuid"),
  (⟨0x3AD9DF29, 0x4501, 0x478D, [0xB1, 0xF8, 0x7F, 0x7F, 0xE7, 0x0E, 0x50, 0xF3]⟩, "gEfiUdp4ProtocolGuid"),
  (⟨0xB3F79D9A, 0x436C, 0xDC11, [0xB0, 0x52, 0xCD, 0x85, 0xDF, 0x52, 0x4C, 0xE6]⟩, "gEfiRegularExpressionProtocolGuid"),
  (⟨0x2F707EBB, 0x4A1A, 0x11D4, [0x9A, 0x38, 0x00, 0x90, 0x27, 0x3F, 0xC1, 0x4D]⟩, "gEfiPciRootBridgeIoProtocolGuid"),
  (⟨0x607F766C, 0x7455, 0x42BE, [0x93, 0x0B, 0xE4, 0xD7, 0x6D, 0xB2, 0x72, 0x0F]⟩, "gEfiTrEEProtocolGuid"),
  (⟨0xF6EE6DBB, 0xD67F, 0x4EA0, [0x8B, 0x96, 0x6A, 0x71, 0xB1, 0x9D, 0x84, 0xAD]⟩, "gEdkiiStatusCodeDataTypeVariableGuid"),
  (⟨0x00000000, 0x0000, 0x0000, [0x00, 0x00, 0x00, 0x00, 0x00, 0x00, 0x00, 0x00]⟩, "gZeroGuid"),
  (⟨0x268F33A9, 0xCCCD, 0x48BE, [0x88, 0x17, 0x86, 0x05, 0x3A, 0xC3, 0x2E, 0xD6]⟩, "gPeiSmmAccessPpiGuid"),
  (⟨0xD8117CFE, 0x94A6, 0x11D4, [0x9A, 0x3A, 0x00, 0x90, 0x27, 0x3F, 0xC1, 0x4D]⟩, "gEfiDecompressProtocolGuid"),
  (⟨0x387477C1, 0x69C7, 0x11D2, [0x8E, 0x39, 0x00, 0xA0, 0xC9, 0x69, 0x72, 0x3B]⟩, "gEfiSimpleTextInProtocolGuid"),
  (⟨0x7BAEC70B, 0x57E0, 0x4C76, [0x8E, 0x87, 0x2F, 0x9E, 0x28, 0x08, 0x83, 0x43]⟩, "gEfiVT100PlusGuid"),
  (⟨0xE9CA4775, 0x8657, 0x47FC, [0x97, 0xE7, 0x7E, 0xD6, 0x5A, 0x08, 0x43, 0x24]⟩, "gEfiHiiFontProtocolGuid"),
  (⟨0x215FDD18, 0xBD50, 0x4FEB, [0x89, 0x0B, 0x58, 0xCA, 0x0B, 0x47, 0x39, 0xE9]⟩, "gEfiSioProtocolGuid"),
  (⟨0x0065D394, 0x9951, 0x4144, [0x82, 0xA3, 0x0A, 0xFC, 0x85, 0x79, 0xC2, 0x51]⟩, "gEfiPeiRscHandlerPpiGuid"),
  (⟨0xDCD0BE23, 0x9586, 0x40F4, [0xB6, 0x43, 0x06, 0x52, 0x2C, 0xED, 0x4E, 0xDE]⟩, "gEfiPeiSecurity2PpiGuid"),
  (⟨0x56EC3091, 0x954C, 0x11D2, [0x8E, 0x3F, 0x00, 0xA0, 0xC9, 0x69, 0x72, 0x3B]⟩, "gEfiLoadFileProtocolGuid"),
  (⟨0xE20939BE, 0x32D4, 0x41BE, [0xA1, 0x50, 0x89, 0x7F, 0x85, 0xD4, 0x98, 0x29]⟩, "gEfiMemoryOverwriteControlDataGuid"),
  (⟨0xF24643C2, 0xC622, 0x494E, [0x8A, 0x0D, 0x46, 0x32, 0x57, 0x9C, 0x2D, 0x5B]⟩, "gEfiTrEEPhysicalPresenceGuid"),
  (⟨0x5E948FE3, 0x26D3, 0x42B5, [0xAF, 0x17, 0x61, 0x02, 0x87, 0x18, 0x8D, 0xEC]⟩, "gEfiDiskInfoIdeInterfaceGuid"),
  (⟨0xF22FC20C, 0x8CF4, 0x45EB, [0x8E, 0x06, 0xAD, 0x4E, 0x50, 0xB9, 0x5D, 0xD3]⟩, "gEfiHiiDriverHealthFormsetGuid"),
  (⟨0x607F766C, 0x7455, 0x42BE, [0x93, 0x0B, 0xE4, 0xD7, 0x6D, 0xB2, 0x72, 0x0F]⟩, "gEfiTcg2ProtocolGuid"),
  (⟨0x8868E871, 0xE4F1, 0x11D3, [0xBC, 0x22, 0x00, 0x80, 0xC7, 0x3C, 0x88, 0x81]⟩, "gEfiAcpi20TableGuid"),
  (⟨0x326AE723, 0xAE32, 0x4589, [0x98, 0xB8, 0xCA, 0xC2, 0x3C, 0xDC, 0xC1, 0xB1]⟩, "gPcAtChipsetPkgTokenSpaceGuid"),
  (⟨0x6FD5B00C, 0xD426, 0x4283, [0x98, 0x87, 0x6C, 0xF5, 0xCF, 0x1C, 0xB1, 0xFE]⟩, "gEfiUserManagerProtocolGuid"),
  (⟨0x2A72D11E, 0x7376, 0x40F6, [0x9C, 0x68, 0x23, 0xFA, 0x2F, 0xE3, 0x63, 0xF1]⟩, "gEfiEbcSimpleDebuggerProtocolGuid"),
  (⟨0xA4C751FC, 0x23AE, 0x4C3E, [0x92, 0xE9, 0x49, 0x64, 0xCF, 0x63, 0xF3, 0x49]⟩, "gEfiUnicodeCollation2ProtocolGuid"),
  (⟨0x78247C57, 0x63DB, 0x4708, [0x99, 0xC2, 0xA8, 0xB4, 0xA9, 0xA6, 0x1F, 0x6B]⟩, "gEfiMtftp4ProtocolGuid"),
  (⟨0x48ECB431, 0xFB72, 0x45C0, [0xA9, 0x22, 0xF4, 0x58, 0xFE, 0x04, 0x0B, 0xD5]⟩, "gEfiEdidOverrideProtocolGuid"),
  (⟨0xEF598499, 0xB25E, 0x473A, [0xBF, 0xAF, 0xE7, 0xE5, 0x7D, 0xCE, 0x82, 0xC4]⟩, "gTpmErrorHobGuid"),
  (⟨0xE58809F8, 0xFBC1, 0x48E2, [0x88, 0x3A, 0xA3, 0x0F, 0xDC, 0x4B, 0x44, 0x1E]⟩, "gEfiIfrFrontPageGuid"),
  (⟨0xA3979E64, 0xACE8, 0x4DDC, [0xBC, 0x07, 0x4D, 0x66, 0xB8, 0xFD, 0x09, 0x77]⟩, "gEfiIpSec2ProtocolGuid"),
  (⟨0x26BACCB2, 0x6F42, 0x11D4, [0xBC, 0xE7, 0x00, 0x80, 0xC7, 0x3C, 0x88, 0x81]⟩, "gEfiMetronomeArchProtocolGuid"),
  (⟨0xF44C00EE, 0x1F2C, 0x4A00, [0xAA, 0x09, 0x1C, 0x9F, 0x3E, 0x08, 0x00, 0xA3]⟩, "gEfiArpServiceBindingProtocolGuid"),
  (⟨0xC12A7328, 0xF81F, 0x11D2, [0xBA, 0x4B, 0x00, 0xA0, 0xC9, 0x3E, 0xC9, 0x3B]⟩, "gEfiPartTypeSystemPartGuid"),
  (⟨0x7F4158D3, 0x074D, 0x456D, [0x8C, 0xB2, 0x01, 0xF9, 0xC8, 0xF7, 0x9D, 0xAA]⟩, "gEfiTpmDeviceSelectedGuid"),
  (⟨0x05C99A21, 0xC70F, 0x4AD2, [0x8A, 0x5F, 0x35, 0xDF, 0x33, 0x43, 0xF5, 0x1E]⟩, "gEfiDevicePathFromTextProtocolGuid"),
  (⟨0xAD15A0D6, 0x8BEC, 0x4ACF, [0xA0, 0x73, 0xD0, 0x1D, 0xE7, 0x7E, 0x2D, 0x88]⟩, "gEfiVTUTF8Guid"),
  (⟨0x86212936, 0x0E76, 0x41C8, [0xA0, 0x3A, 0x2A, 0xF2, 0xFC, 0x1C, 0x39, 0xE2]⟩, "gEfiRscHandlerProtocolGuid"),
  (⟨0x26BACCB1, 0x6F42, 0x11D4, [0xBC, 0xE7, 0x00, 0x80, 0xC7, 0x3C, 0x88, 0x81]⟩, "gEfiCpuArchProtocolGuid"),
  (⟨0xA7717414, 0xC616, 0x4977, [0x94, 0x20, 0x84, 0x47, 0x12, 0xA7, 0x35, 0xBF]⟩, "gEfiCertTypeRsa2048Sha256Guid"),
  (⟨0x4B3029CC, 0x6B98, 0x47FB, [0xBC, 0x96, 0x76, 0xDC, 0xB8, 0x04, 0x41, 0xF0]⟩, "gEfiDiskInfoUfsInterfaceGuid"),
  (⟨0x587E72D7, 0xCC50, 0x4F79, [0x82, 0x09, 0xCA, 0x29, 0x1F, 0xC1, 0xA1, 0x0F]⟩, "gEfiHiiConfigRoutingProtocolGuid"),
  (⟨0x665E3FF5, 0x46CC, 0x11D4, [0x9A, 0x38, 0x00, 0x90, 0x27, 0x3F, 0xC1, 0x4D]⟩, "gEfiWatchdogTimerArchProtocolGuid"),
  (⟨0x27CFAC87, 0x46CC, 0x11D4, [0x9A, 0x38, 0x00, 0x90, 0x27, 0x3F, 0xC1, 0x4D]⟩, "gEfiRealTimeClockArchProtocolGuid"),
  (⟨0x06E81C58, 0x4AD7, 0x44BC, [0x83, 0x90, 0xF1, 0x02, 0x65, 0xF7, 0x24, 0x80]⟩, "gPcdPpiGuid"),
  (⟨0xEB23F55A, 0x7863, 0x4AC2, [0x8D, 0x3D, 0x95, 0x65, 0x35, 0xDE, 0x03, 0x75]⟩, "gEfiIncompatiblePciDeviceSupportProtocolGuid"),
  (⟨0xDD9E7534, 0x7762, 0x4698, [0x8C, 0x14, 0xF5, 0x85, 0x17, 0xA6, 0x25, 0xAA]⟩, "gEfiSimpleTextInputExProtocolGuid")
]

/-- Rows 300..349 of the static GUID table. -/
def GuidMappings_6 : List (EFI_GUID × String) := [
  (⟨0xD3B36F2C, 0xD551, 0x11D4, [0x9A, 0x46, 0x00, 0x90, 0x27, 0x3F, 0xC1, 0x4D]⟩, "gEfiConsoleOutDeviceGuid"),
  (⟨0xCD3D0A05, 0x9E24, 0x437C, [0xA8, 0x91, 0x1E, 0xE0, 0x53, 0xDB, 0x76, 0x38]⟩, "gEdkiiVariableLockProtocolGuid"),
  (⟨0x1259F60D, 0xB754, 0x468E, [0xA7, 0x89, 0x4D, 0xB8, 0x5D, 0x55, 0xE8, 0x7E]⟩, "gEfiSwapAddressRangeProtocolGuid"),
  (⟨0x880AACA3, 0x4ADC, 0x4A04, [0x90, 0x79, 0xB7, 0x47, 0x34, 0x08, 0x25, 0xE5]⟩, "gEfiPropertiesTableGuid"),
  (⟨0xF8E21975, 0x0899, 0x4F58, [0xA4, 0xBE, 0x55, 0x25, 0xA9, 0xC6, 0xD7, 0x7A]⟩, "gEfiHobMemoryAllocModuleGuid"),
  (⟨0x6456ED61, 0x3579, 0x41C9, [0x8A, 0x26, 0x0A, 0x0B, 0xD6, 0x2B, 0x78, 0xFC]⟩, "gIp4IScsiConfigGuid"),
  (⟨0x09576E92, 0x6D3F, 0x11D2, [0x8E, 0x39, 0x00, 0xA0, 0xC9, 0x69, 0x72, 0x3B]⟩, "gEfiFileInfoGuid"),
  (⟨0x4D8B155B, 0xC059, 0x4C8F, [0x89, 0x26, 0x06, 0xFD, 0x43, 0x31, 0xDB, 0x8A]⟩, "gGetPcdInfoPpiGuid"),
  (⟨0xFC510EE7, 0xFFDC, 0x11D4, [0xBD, 0x41, 0x00, 0x80, 0xC7, 0x3C, 0x88, 0x81]⟩, "gAprioriGuid"),
  (⟨0x4006C0C1, 0xFCB3, 0x403E, [0x99, 0x6D, 0x4A, 0x6C, 0x87, 0x24, 0xE0, 0x6D]⟩, "gEfiLoadFile2ProtocolGuid"),
  (⟨0xAF060190, 0x5E3A, 0x4025, [0xAF, 0xBD, 0xE1, 0xF9, 0x05, 0xBF, 0xAA, 0x4C]⟩, "gEfiHiiImageDecoderNamePngGuid"),
  (⟨0xAC05BF33, 0x995A, 0x4ED4, [0xAA, 0xB8, 0xEF, 0x7A, 0xE8, 0x0F, 0x5C, 0xB0]⟩, "gUefiCpuPkgTokenSpaceGuid"),
  (⟨0x4DF19259, 0xDC71, 0x4D46, [0xBE, 0xF1, 0x35, 0x7B, 0xB5, 0x78, 0xC4, 0x18]⟩, "gEfiPs2PolicyProtocolGuid"),
  (⟨0xE0C14753, 0xF9BE, 0x11D2, [0x9A, 0x0C, 0x00, 0x90, 0x27, 0x3F, 0xC1, 0x4D]⟩, "gEfiPcAnsiGuid"),
  (⟨0x76B6BDFA, 0x2ACD, 0x4462, [0x9E, 0x3F, 0xCB, 0x58, 0xC9, 0x69, 0xD9, 0x37]⟩, "gPerformanceProtocolGuid"),
  (⟨0xCE345171, 0xBA0B, 0x11D2, [0x8E, 0x4F, 0x00, 0xA0, 0xC9, 0x69, 0x72, 0x3B]⟩, "gEfiDiskIoProtocolGuid"),
  (⟨0x2755590C, 0x6F3C, 0x42FA, [0x9E, 0xA4, 0xA3, 0xBA, 0x54, 0x3C, 0xDA, 0x25]⟩, "gEfiDebugSupportProtocolGuid"),
  (⟨0x752F3136, 0x4E16, 0x4FDC, [0xA2, 0x2A, 0xE5, 0xF4, 0x68, 0x12, 0xF4, 0xCA]⟩, "gEfiShellParametersProtocolGuid"),
  (⟨0xD2B2B828, 0x0826, 0x48A7, [0xB3, 0xDF, 0x98, 0x3C, 0x00, 0x60, 0x24, 0xF0]⟩, "gEfiStatusCodeRuntimeProtocolGuid"),
  (⟨0x996EC11C, 0x5397, 0x4E73, [0xB5, 0x8F, 0x82, 0x7E, 0x52, 0x90, 0x6D, 0xEF]⟩, "gEfiVectorHandoffTableGuid"),
  (⟨0x7CE88FB3, 0x4BD7, 0x4679, [0x87, 0xA8, 0xA8, 0xD8, 0xDE, 0xE5, 0x0D, 0x2B]⟩, "gEfiEventReadyToBootGuid"),
  (⟨0x0F0B1735, 0x87A0, 0x4193, [0xB2, 0x66, 0x53, 0x8C, 0x38, 0xAF, 0x48, 0xCE]⟩, "gEfiIfrTianoGuid"),
  (⟨0xAB38A0DF, 0x6873, 0x44A9, [0x87, 0xE6, 0xD4, 0xEB, 0x56, 0x14, 0x84, 0x49]⟩, "gEfiRamDiskProtocolGuid"),
  (⟨0x7D916D80, 0x5BB1, 0x458C, [0xA4, 0x8F, 0xE2, 0x5F, 0xDD, 0x51, 0xEF, 0x94]⟩, "gEfiTtyTermGuid"),
  (⟨0x51AA59DE, 0xFDF2, 0x4EA3, [0xBC, 0x63, 0x87, 0x5F, 0xB7, 0x84, 0x2E, 0xE9]⟩, "gEfiHashAlgorithmSha256Guid"),
  (⟨0xEF9FC172, 0xA1B2, 0x4693, [0xB3, 0x27, 0x6D, 0x32, 0xFC, 0x41, 0x60, 0x42]⟩, "gEfiHiiDatabaseProtocolGuid"),
  (⟨0x31878C87, 0x0B75, 0x11D5, [0x9A, 0x4F, 0x00, 0x90, 0x27, 0x3F, 0xC1, 0x4D]⟩, "gEfiSimplePointerProtocolGuid"),
  (⟨0x19CB87AB, 0x2CB9, 0x4665, [0x83, 0x60, 0xDD, 0xCF, 0x60, 0x54, 0xF7, 0x9D]⟩, "gEfiPciHotPlugRequestProtocolGuid"),
  (⟨0x49152E77, 0x1ADA, 0x4764, [0xB7, 0xA2, 0x7A, 0xFE, 0xFE, 0xD9, 0x5E, 0x8B]⟩, "gEfiDebugImageInfoTableGuid"),
  (⟨0x7408D748, 0xFC8C, 0x4EE6, [0x92, 0x88, 0xC4, 0xBE, 0xC0, 0x92, 0xA4, 0x10]⟩, "gEfiPeiMasterBootModePpiGuid"),
  (⟨0x3A4D7A7C, 0x018A, 0x4B42, [0x81, 0xB3, 0xDC, 0x10, 0xE3, 0xB5, 0x91, 0xBD]⟩, "gUsbKeyboardLayoutKeyGuid"),
  (⟨0xDFA66065, 0xB419, 0x11D3, [0x9A, 0x2D, 0x00, 0x90, 0x27, 0x3F, 0xC1, 0x4D]⟩, "gEfiVT100Guid"),
  (⟨0x2B9FFB52, 0x1B13, 0x416F, [0xA8, 0x7B, 0xBC, 0x93, 0x0D, 0xEF, 0x92, 0xA8]⟩, "gTcgEventEntryHobGuid"),
  (⟨0xC51711E7, 0xB4BF, 0x404A, [0xBF, 0xB8, 0x0A, 0x04, 0x8E, 0xF1, 0xFF, 0xE4]⟩, "gEfiIp4ServiceBindingProtocolGuid"),
  (⟨0x37499A9D, 0x542F, 0x4C89, [0xA0, 0x26, 0x35, 0xDA, 0x14, 0x20, 0x94, 0xE4]⟩, "gEfiUartDevicePathGuid"),
  (⟨0x387477C2, 0x69C7, 0x11D2, [0x8E, 0x39, 0x00, 0xA0, 0xC9, 0x69, 0x72, 0x3B]⟩, "gEfiSimpleTextOutProtocolGuid"),
  (⟨0x27CFAC88, 0x46CC, 0x11D4, [0x9A, 0x38, 0x00, 0x90, 0x27, 0x3F, 0xC1, 0x4D]⟩, "gEfiResetArchProtocolGuid"),
  (⟨0x964E5B22, 0x6459, 0x11D2, [0x8E, 0x39, 0x00, 0xA0, 0xC9, 0x69, 0x72, 0x3B]⟩, "gEfiSimpleFileSystemProtocolGuid"),
  (⟨0x982C298B, 0xF4FA, 0x41CB, [0xB8, 0x38, 0x77, 0xAA, 0x68, 0x8F, 0xB8, 0x39]⟩, "gEfiUgaDrawProtocolGuid"),
  (⟨0x229832D3, 0x7A30, 0x4B36, [0xB8, 0x27, 0xF4, 0x0C, 0xB7, 0xD4, 0x54, 0x36]⟩, "gEfiPeiStatusCodePpiGuid"),
  (⟨0x52C78312, 0x8EDC, 0x4233, [0x98, 0xF2, 0x1A, 0x1A, 0xA5, 0xE3, 0x88, 0xA5]⟩, "gEfiNvmExpressPassThruProtocolGuid"),
  (⟨0x3EBD9E82, 0x2C78, 0x4DE6, [0x97, 0x86, 0x8D, 0x4B, 0xFC, 0xB7, 0xC8, 0x81]⟩, "gEfiFaultTolerantWriteProtocolGuid"),
  (⟨0x821C9A09, 0x541A, 0x40F6, [0x9F, 0x43, 0x0A, 0xD1, 0x93, 0xA1, 0x2C, 0xFE]⟩, "gEdkiiMemoryProfileGuid"),
  (⟨0x665E3FF6, 0x46CC, 0x11D4, [0x9A, 0x38, 0x00, 0x90, 0x27, 0x3F, 0xC1, 0x4D]⟩, "gEfiBdsArchProtocolGuid"),
  (⟨0x8F644FA9, 0xE850, 0x4DB1, [0x9C, 0xE2, 0x0B, 0x44, 0x69, 0x8E, 0x8D, 0xA4]⟩, "gEfiFirmwareVolumeBlockProtocolGuid"),
  (⟨0xCDEA2BD3, 0xFC25, 0x4C1C, [0xB9, 0x7C, 0xB3, 0x11, 0x86, 0x06, 0x49, 0x90]⟩, "gEfiBootLogoProtocolGuid"),
  (⟨0x0D3FB176, 0x9569, 0x4D51, [0xA3, 0xEF, 0x7D, 0x61, 0xC6, 0x4F, 0xEA, 0xBA]⟩, "gEfiSecurityPkgTokenSpaceGuid"),
  (⟨0xA1E37052, 0x80D9, 0x4E65, [0xA3, 0x17, 0x3E, 0x9A, 0x55, 0xC4, 0x3E, 0xC9]⟩, "gEfiIdeControllerInitProtocolGuid"),
  (⟨0x31CA5D1A, 0xD511, 0x4931, [0xB7, 0x82, 0xAE, 0x6B, 0x2B, 0x17, 0x8C, 0xD7]⟩, "gEfiIfrFrameworkGuid"),
  (⟨0x2A46715F, 0x3581, 0x4A55, [0x8E, 0x73, 0x2B, 0x76, 0x9A, 0xAA, 0x30, 0xC5]⟩, "gRamDiskFormSetGuid")
]

/-- Rows 350..399 of the static GUID table. -/
def GuidMappings_7 : List (EFI_GUID × String) := [
  (⟨0x77AB535A, 0x45FC, 0x624B, [0x55, 0x60, 0xF7, 0xB2, 0x81, 0xD1, 0xF9, 0x6E]⟩, "gEfiVirtualDiskGuid"),
  (⟨0xB2360B42, 0x7173, 0x420A, [0x86, 0x96, 0x46, 0xCA, 0x6B, 0xAB, 0x10, 0x60]⟩, "gMeasuredFvHobGuid"),
  (⟨0x6A7A5CFF, 0xE8D9, 0x4F70, [0xBA, 0xDA, 0x75, 0xAB, 0x30, 0x25, 0xCE, 0x14]⟩, "gEfiComponentName2ProtocolGuid"),
  (⟨0xE9DB0D58, 0xD48D, 0x47F6, [0x9C, 0x6E, 0x6F, 0x40, 0xE8, 0x6C, 0x7B, 0x41]⟩, "gPeiTpmInitializedPpiGuid"),
  (⟨0xEFEFD093, 0x0D9B, 0x46EB, [0xA8, 0x56, 0x48, 0x35, 0x07, 0x00, 0xC9, 0x08]⟩, "gEfiHiiImageDecoderNameJpegGuid"),
  (⟨0x245DCA21, 0xFB7B, 0x11D3, [0x8F, 0x01, 0x00, 0xA0, 0xC9, 0x69, 0x72, 0x3B]⟩, "gEfiPxeBaseCodeCallbackProtocolGuid"),
  (⟨0x3C8D294C, 0x5FC3, 0x4451, [0xBB, 0x31, 0xC4, 0xC0, 0x32, 0x29, 0x5E, 0x6C]⟩, "gIdleLoopEventGuid"),
  (⟨0x00000000, 0x0000, 0x0000, [0x00, 0x00, 0x00, 0x00, 0x00, 0x00, 0x00, 0x00]⟩, "gEfiTpmDeviceInstanceNoneGuid"),
  (⟨0x220E73B6, 0x6BDB, 0x4413, [0x84, 0x05, 0xB9, 0x74, 0xB1, 0x08, 0x61, 0x9A]⟩, "gEfiFirmwareVolume2ProtocolGuid"),
  (⟨0x480F8AE9, 0x0C46, 0x4AA9, [0xBC, 0x89, 0xDB, 0x9F, 0xBA, 0x61, 0x98, 0x06]⟩, "gEfiDpcProtocolGuid"),
  (⟨0xEB97088E, 0xCFDF, 0x49C6, [0xBE, 0x4B, 0xD9, 0x06, 0xA5, 0xB2, 0x0E, 0x86]⟩, "gEfiAcpiSdtProtocolGuid"),
  (⟨0xDB47D7D3, 0xFE81, 0x11D3, [0x9A, 0x35, 0x00, 0x90, 0x27, 0x3F, 0xC1, 0x4D]⟩, "gEfiFileSystemVolumeLabelInfoIdGuid"),
  (⟨0xDCFA911D, 0x26EB, 0x469F, [0xA2, 0x20, 0x38, 0xB7, 0xDC, 0x46, 0x12, 0x20]⟩, "gEfiMemoryAttributesTableGuid"),
  (⟨0x14982A4F, 0xB0ED, 0x45B8, [0xA8, 0x11, 0x5A, 0x7A, 0x9B, 0xC2, 0x32, 0xDF]⟩, "gEfiHiiKeyBoardLayoutGuid"),
  (⟨0x09576E91, 0x6D3F, 0x11D2, [0x8E, 0x39, 0x00, 0xA0, 0xC9, 0x69, 0x72, 0x3B]⟩, "gEfiDevicePathProtocolGuid"),
  (⟨0x3BC1B285, 0x8A15, 0x4A82, [0xAA, 0xBF, 0x4D, 0x7D, 0x13, 0xFB, 0x32, 0x65]⟩, "gEfiBusSpecificDriverOverrideProtocolGuid"),
  (⟨0x060CC026, 0x4C0D, 0x4DDA, [0x8F, 0x41, 0x59, 0x5F, 0xEF, 0x00, 0xA5, 0x02]⟩, "gMemoryStatusCodeRecordGuid"),
  (⟨0x1D3DE7F0, 0x0807, 0x424F, [0xAA, 0x69, 0x11, 0xA5, 0x4E, 0x19, 0xA4, 0x6F]⟩, "gEfiAtaPassThruProtocolGuid"),
  (⟨0x27ABF055, 0xB1B8, 0x4C26, [0x80, 0x48, 0x74, 0x8F, 0x37, 0xBA, 0xA2, 0xDF]⟩, "gEfiEventExitBootServicesGuid"),
  (⟨0xFFE06BDD, 0x6107, 0x46A6, [0x7B, 0xB2, 0x5A, 0x9C, 0x7E, 0xC5, 0x27, 0x5C]⟩, "gEfiAcpiTableProtocolGuid"),
  (⟨0x41D94CD2, 0x35B6, 0x455A, [0x82, 0x58, 0xD4, 0xE5, 0x13, 0x34, 0xAA, 0xDD]⟩, "gEfiIp4ProtocolGuid"),
  (⟨0x93BB96AF, 0xB9F2, 0x4EB8, [0x94, 0x62, 0xE0, 0xBA, 0x74, 0x56, 0x42, 0x36]⟩, "gUefiOvmfPkgTokenSpaceGuid"),
  (⟨0x0CC252D2, 0xC106, 0x4661, [0xB5, 0xBD, 0x31, 0x47, 0xA4, 0xF8, 0x1F, 0x92]⟩, "gEfiPrint2SProtocolGuid"),
  (⟨0x2AB86EF5, 0xECB5, 0x4134, [0xB5, 0x56, 0x38, 0x54, 0xCA, 0x1F, 0xE1, 0xB4]⟩, "gEfiPeiReadOnlyVariable2PpiGuid"),
  (⟨0x0F6499B1, 0xE9AD, 0x493D, [0xB9, 0xC2, 0x2F, 0x90, 0x81, 0x5C, 0x6C, 0xBC]⟩, "gEfiPhysicalPresenceGuid"),
  (⟨0x9E23D768, 0xD2F3, 0x4366, [0x9F, 0xC3, 0x3A, 0x7A, 0xBA, 0x86, 0x43, 0x74]⟩, "gEfiVlanConfigProtocolGuid"),
  (⟨0x38321DBA, 0x4FE0, 0x4E17, [0x8A, 0xEC, 0x41, 0x30, 0x55, 0xEA, 0xED, 0xC1]⟩, "gEfiLegacy8259ProtocolGuid"),
  (⟨0x6B558CE3, 0x69E5, 0x4C67, [0xA6, 0x34, 0xF7, 0xFE, 0x72, 0xAD, 0xBE, 0x84]⟩, "gBlockMmioProtocolGuid"),
  (⟨0x6D582DBC, 0xDB85, 0x4514, [0x8F, 0xCC, 0x5A, 0xDF, 0x62, 0x27, 0xB1, 0x47]⟩, "gEfiPeiS3Resume2PpiGuid"),
  (⟨0x6A1EE763, 0xD47A, 0x43B4, [0xAA, 0xBE, 0xEF, 0x1D, 0xE2, 0xAB, 0x56, 0xFC]⟩, "gEfiHiiPackageListProtocolGuid"),
  (⟨0x2E3044AC, 0x879F, 0x490F, [0x97, 0x60, 0xBB, 0xDF, 0xAF, 0x69, 0x5F, 0x50]⟩, "gEfiLegacyBiosGuid"),
  (⟨0x30CFE3E7, 0x3DE1, 0x4586, [0xBE, 0x20, 0xDE, 0xAB, 0xA1, 0xB3, 0xB7, 0x93]⟩, "gEfiPciEnumerationCompleteProtocolGuid"),
  (⟨0x3D3CA290, 0xB9A5, 0x11E3, [0xB7, 0x5D, 0xB8, 0xAC, 0x6F, 0x7D, 0x65, 0xE6]⟩, "gXenBusProtocolGuid"),
  (⟨0x8D59D32B, 0xC655, 0x4AE9, [0x9B, 0x15, 0xF2, 0x59, 0x04, 0x99, 0x2A, 0x43]⟩, "gEfiAbsolutePointerProtocolGuid"),
  (⟨0x1A36E4E7, 0xFAB6, 0x476A, [0x8E, 0x75, 0x69, 0x5A, 0x05, 0x76, 0xFD, 0xD7]⟩, "gEfiPeiDecompressPpiGuid"),
  (⟨0xF5089266, 0x1AA0, 0x4953, [0x97, 0xD8, 0x56, 0x2F, 0x8A, 0x73, 0xB5, 0x19]⟩, "gEfiUsbHcProtocolGuid"),
  (⟨0x11B34006, 0xD85B, 0x4D0A, [0xA2, 0x90, 0xD5, 0xA5, 0x71, 0x31, 0x0E, 0xF7]⟩, "gPcdProtocolGuid"),
  (⟨0x1ACED566, 0x76ED, 0x4218, [0xBC, 0x81, 0x76, 0x7F, 0x1F, 0x97, 0x7A, 0x89]⟩, "gEfiNetworkInterfaceIdentifierProtocolGuid_31"),
  (⟨0x8B843E20, 0x8132, 0x4852, [0x90, 0xCC, 0x55, 0x1A, 0x4E, 0x4A, 0x7F, 0x1C]⟩, "gEfiDevicePathToTextProtocolGuid"),
  (⟨0x4F6C5507, 0x232F, 0x4787, [0xB9, 0x5E, 0x72, 0xF8, 0x62, 0x49, 0x0C, 0xB1]⟩, "gEventExitBootServicesFailedGuid"),
  (⟨0xBD8C1056, 0x9F36, 0x44EC, [0x92, 0xA8, 0xA6, 0x33, 0x7F, 0x81, 0x79, 0x86]⟩, "gEfiEdidActiveProtocolGuid"),
  (⟨0x00000000, 0x0000, 0x0000, [0x00, 0x00, 0x00, 0x00, 0x00, 0x00, 0x00, 0x00]⟩, "gEfiPartTypeUnusedGuid"),
  (⟨0xD3B36F2D, 0xD551, 0x11D4, [0x9A, 0x46, 0x00, 0x90, 0x27, 0x3F, 0xC1, 0x4D]⟩, "gEfiStandardErrorDeviceGuid"),
  (⟨0x9E498932, 0x4ABC, 0x45AF, [0xA3, 0x4D, 0x02, 0x47, 0x78, 0x7B, 0xE7, 0xC6]⟩, "gEfiDiskInfoAhciInterfaceGuid"),
  (⟨0x92D11080, 0x496F, 0x4D95, [0xBE, 0x7E, 0x03, 0x74, 0x88, 0x38, 0x2B, 0x0A]⟩, "gEfiStatusCodeDataTypeStringGuid"),
  (⟨0x1C0C34F6, 0xD380, 0x41FA, [0xA0, 0x49, 0x8A, 0xD0, 0x6C, 0x1A, 0x66, 0xAA]⟩, "gEfiEdidDiscoveredProtocolGuid"),
  (⟨0x9E58292B, 0x7C68, 0x497D, [0xA0, 0xCE, 0x65, 0x00, 0xFD, 0x9F, 0x1B, 0x95]⟩, "gEdkiiWorkingBlockSignatureGuid"),
  (⟨0xA19832B9, 0xAC25, 0x11D3, [0x9A, 0x2D, 0x00, 0x90, 0x27, 0x3F, 0xC1, 0x4D]⟩, "gEfiSimpleNetworkProtocolGuid"),
  (⟨0x53CD299F, 0x2BC1, 0x40C0, [0x8C, 0x07, 0x23, 0xF6, 0x4F, 0xDB, 0x30, 0xE0]⟩, "gEdkiiPlatformLogoProtocolGuid"),
  (⟨0xAF9FFD67, 0xEC10, 0x488A, [0x9D, 0xFC, 0x6C, 0xBF, 0x5E, 0xE2, 0x2C, 0x2E]⟩, "gEfiAcpiVariableGuid")
]

/-- Rows 400..440 of the static GUID table. -/
def GuidMappings_8 : List (EFI_GUID × String) := [
  (⟨0x1E43298F, 0x3478, 0x41A7, [0xB5, 0x77, 0x86, 0x06, 0x46, 0x35, 0xC7, 0x28]⟩, "gOptionRomPkgTokenSpaceGuid"),
  (⟨0x07D75280, 0x27D4, 0x4D69, [0x90, 0xD0, 0x56, 0x43, 0xE2, 0x38, 0xB3, 0x41]⟩, "gEfiPciPlatformProtocolGuid"),
  (⟨0xDB4E8151, 0x57ED, 0x4BED, [0x88, 0x33, 0x67, 0x51, 0xB5, 0xD1, 0xA8, 0xD7]⟩, "gConnectConInEventGuid"),
  (⟨0xE43176D7, 0xB6E8, 0x4827, [0xB7, 0x84, 0x7F, 0xFD, 0xC4, 0xB6, 0x85, 0x61]⟩, "gEfiRngAlgorithmRaw"),
  (⟨0x95A9A93E, 0xA86E, 0x4926, [0xAA, 0xEF, 0x99, 0x18, 0xE7, 0x72, 0xD9, 0x87]⟩, "gEfiEraseBlockProtocolGuid"),
  (⟨0x8C8CE578, 0x8A3D, 0x4F1C, [0x99, 0x35, 0x89, 0x61, 0x85, 0xC3, 0x2D, 0xD3]⟩, "gEfiFirmwareFileSystem2Guid"),
  (⟨0xF4B427BB, 0xBA21, 0x4F16, [0xBC, 0x4E, 0x43, 0xE4, 0x16, 0xAB, 0x61, 0x9C]⟩, "gEfiArpProtocolGuid"),
  (⟨0x4CF5B200, 0x68B8, 0x4CA5, [0x9E, 0xEC, 0xB2, 0x3E, 0x3F, 0x50, 0x02, 0x9A]⟩, "gEfiPciIoProtocolGuid"),
  (⟨0x5473C07A, 0x3DCB, 0x4DCA, [0xBD, 0x6F, 0x1E, 0x96, 0x89, 0xE7, 0x34, 0x9A]⟩, "gEfiFirmwareFileSystem3Guid"),
  (⟨0x6302D008, 0x7F9B, 0x4F30, [0x87, 0xAC, 0x60, 0xC9, 0xFE, 0xF5, 0xDA, 0x4E]⟩, "gEfiShellProtocolGuid"),
  (⟨0x3CD652B4, 0x6D33, 0x4DCE, [0x89, 0xDB, 0x83, 0xDF, 0x97, 0x66, 0xFC, 0xCA]⟩, "gEfiVectorHandoffInfoPpiGuid"),
  (⟨0x7739F24C, 0x93D7, 0x11D4, [0x9A, 0x3A, 0x00, 0x90, 0x27, 0x3F, 0xC1, 0x4D]⟩, "gEfiHobListGuid"),
  (⟨0x932F47E6, 0x2362, 0x4002, [0x80, 0x3E, 0x3C, 0xD5, 0x4B, 0x13, 0x8F, 0x85]⟩, "gEfiScsiIoProtocolGuid"),
  (⟨0x08F74BAA, 0xEA36, 0x41D9, [0x95, 0x21, 0x21, 0xA7, 0x0F, 0x87, 0x80, 0xBC]⟩, "gEfiDiskInfoScsiInterfaceGuid"),
  (⟨0x64A892DC, 0x5561, 0x4536, [0x92, 0xC7, 0x79, 0x9B, 0xFC, 0x18, 0x33, 0x55]⟩, "gEfiIsaAcpiProtocolGuid"),
  (⟨0xEB9D2D31, 0x2D88, 0x11D3, [0x9A, 0x16, 0x00, 0x90, 0x27, 0x3F, 0xC1, 0x4D]⟩, "gEfiSmbiosTableGuid"),
  (⟨0xBB25CF6F, 0xF1D4, 0x11D2, [0x9A, 0x0C, 0x00, 0x90, 0x27, 0x3F, 0xC1, 0xFD]⟩, "gEfiSerialIoProtocolGuid"),
  (⟨0xAA0E8BC1, 0xDABC, 0x46B0, [0xA8, 0x44, 0x37, 0xB8, 0x16, 0x9B, 0x2B, 0xEA]⟩, "gEfiPciHotPlugInitProtocolGuid"),
  (⟨0xD3B36F2B, 0xD551, 0x11D4, [0x9A, 0x46, 0x00, 0x90, 0x27, 0x3F, 0xC1, 0x4D]⟩, "gEfiConsoleInDeviceGuid"),
  (⟨0xA770C357, 0xB693, 0x4E6D, [0xA6, 0xCF, 0xD2, 0x1C, 0x72, 0x8E, 0x55, 0x0B]⟩, "gEdkiiFormBrowserEx2ProtocolGuid"),
  (⟨0x3079818C, 0x46D4, 0x4A73, [0xAE, 0xF3, 0xE3, 0xE4, 0x6C, 0xF1, 0xEE, 0xDB]⟩, "gEfiBootScriptExecutorVariableGuid"),
  (⟨0x6B30C738, 0xA391, 0x11D4, [0x9A, 0x3B, 0x00, 0x90, 0x27, 0x3F, 0xC1, 0x4D]⟩, "gEfiPlatformDriverOverrideProtocolGuid"),
  (⟨0xFD0F4478, 0x0EFD, 0x461D, [0xBA, 0x2D, 0xE5, 0x8C, 0x45, 0xFD, 0x5F, 0x5E]⟩, "gEfiGetPcdInfoProtocolGuid"),
  (⟨0x31CE593D, 0x108A, 0x485D, [0xAD, 0xB2, 0x78, 0xF2, 0x1F, 0x29, 0x66, 0xBE]⟩, "gEfiLegacyInterruptProtocolGuid"),
  (⟨0xEB704011, 0x1402, 0x11D3, [0x8E, 0x77, 0x00, 0xA0, 0xC9, 0x69, 0x72, 0x3B]⟩, "gMtcVendorGuid"),
  (⟨0x18A031AB, 0xB443, 0x4D1A, [0xA5, 0xC0, 0x0C, 0x09, 0x26, 0x1E, 0x9F, 0x71]⟩, "gEfiDriverBindingProtocolGuid"),
  (⟨0xA1AFF049, 0xFDEB, 0x442A, [0xB3, 0x20, 0x13, 0xAB, 0x4C, 0xB7, 0x2B, 0xBC]⟩, "gEfiMdeModulePkgTokenSpaceGuid"),
  (⟨0x13A3F0F6, 0x264A, 0x3EF0, [0xF2, 0xE0, 0xDE, 0xC5, 0x12, 0x34, 0x2F, 0x34]⟩, "gEfiPcdProtocolGuid"),
  (⟨0xF05976EF, 0x83F1, 0x4F3D, [0x86, 0x19, 0xF7, 0x59, 0x5D, 0x41, 0xE5, 0x38]⟩, "gEfiPrint2ProtocolGuid"),
  (⟨0x94AB2F58, 0x1438, 0x4EF1, [0x91, 0x52, 0x18, 0x94, 0x1A, 0x3A, 0x0E, 0x68]⟩, "gEfiSecurity2ArchProtocolGuid"),
  (⟨0xD3705011, 0xBC19, 0x4AF7, [0xBE, 0x16, 0xF6, 0x80, 0x30, 0x37, 0x8C, 0x15]⟩, "gEfiIntelFrameworkModulePkgTokenSpaceGuid"),
  (⟨0xE857CAF6, 0xC046, 0x45DC, [0xBE, 0x3F, 0xEE, 0x07, 0x65, 0xFB, 0xA8, 0x87]⟩, "gEfiS3SaveStateProtocolGuid"),
  (⟨0x70101EAF, 0x0085, 0x440C, [0xB3, 0x56, 0x8E, 0xE3, 0x6F, 0xEF, 0x24, 0xF0]⟩, "gEfiLegacyRegion2ProtocolGuid"),
  (⟨0xC7735A2F, 0x88F5, 0x4882, [0xAE, 0x63, 0xFA, 0xAC, 0x8C, 0x8B, 0x86, 0xB3]⟩, "gEfiVgaMiniPortProtocolGuid"),
  (⟨0x5053697E, 0x2CBC, 0x4819, [0x90, 0xD9, 0x05, 0x80, 0xDE, 0xEE, 0x57, 0x54]⟩, "gEfiCapsuleArchProtocolGuid"),
  (⟨0xB1EE129E, 0xDA36, 0x4181, [0x91, 0xF8, 0x04, 0xA4, 0x92, 0x37, 0x66, 0xA7]⟩, "gEfiDriverFamilyOverrideProtocolGuid"),
  (⟨0xA46423E3, 0x4617, 0x49F1, [0xB9, 0xFF, 0xD1, 0xBF, 0xA9, 0x11, 0x58, 0x39]⟩, "gEfiSecurityArchProtocolGuid"),
  (⟨0x330D4706, 0xF2A0, 0x4E4F, [0xA3, 0x69, 0xB6, 0x6F, 0xA8, 0xD5, 0x43, 0x85]⟩, "gEfiHiiConfigAccessProtocolGuid"),
  (⟨0xFC1BCDB0, 0x7D31, 0x49AA, [0x93, 0x6A, 0xA4, 0x60, 0x0D, 0x9D, 0xD0, 0x83]⟩, "CRC32"),
  (⟨0xA31280AD, 0x481E, 0x41B6, [0x95, 0xE8, 0x12, 0x7F, 0x4C, 0x98, 0x47, 0x79]⟩, "TIANO_COMPRESS"),
  (⟨0xEE4E5898, 0x3914, 0x4259, [0x9D, 0x6E, 0xDC, 0x7B, 0xD7, 0x94, 0x03, 0xCF]⟩, "LZMA_COMPRESS")
]

/-- The static `GuidMappings[NUM_GUID_MAPPINGS]` table, transcribed
entry by entry from the C initializer (guid, name). -/
def GuidMappings : List (EFI_GUID × String) :=
  GuidMappings_0 ++ GuidMappings_1 ++ GuidMappings_2 ++ GuidMappings_3 ++ GuidMappings_4 ++ GuidMappings_5 ++ GuidMappings_6 ++ GuidMappings_7 ++ GuidMappings_8

/-- The four little-endian 32-bit words of the 16-byte GUID, exactly as
`CompareGuid` views the structure through an `int32_t*`. -/
def guidWord (g : EFI_GUID) : Nat → Nat
  | 0 => g.Data1 % 2 ^ 32
  | 1 => g.Data2 % 2 ^ 16 + g.Data3 % 2 ^ 16 * 2 ^ 16
  | 2 => g.Data4.getD 0 0 % 256 + g.Data4.getD 1 0 % 256 * 2 ^ 8 +
         g.Data4.getD 2 0 % 256 * 2 ^ 16 + g.Data4.getD 3 0 % 256 * 2 ^ 24
  | _ => g.Data4.getD 4 0 % 256 + g.Data4.getD 5 0 % 256 * 2 ^ 8 +
         g.Data4.getD 6 0 % 256 * 2 ^ 16 + g.Data4.getD 7 0 % 256 * 2 ^ 24

/-- `CompareGuid`: subtracts the four 32-bit words (two-complement
wrap-around, so each difference is the unsigned bit pattern of the
`int32_t` result) and folds them together with bitwise or; the result
is 0 exactly when the two GUIDs agree on all 128 bits. -/
def CompareGuid (g1 g2 : EFI_GUID) : Nat :=
  let d := fun i => (guidWord g1 i + 2 ^ 32 - guidWord g2 i) % 2 ^ 32
  d 0 ||| d 1 ||| d 2 ||| d 3

/-- Tail of the `GetGuidName` scan: walks the table in order and
returns the name of the first entry whose GUID compares equal, or the
literal `"<Unknown>"` marker after comparing against every entry. -/
def GetGuidNameGo (Protocol : EFI_GUID) :
    List (EFI_GUID × String) → String
  | [] => "<Unknown>"
  | e :: rest =>
    if CompareGuid Protocol e.1 = 0 then e.2
    else GetGuidNameGo Protocol rest

/-- `GetGuidName`: linear first-match scan over `GuidMappings` (the
`Protocol == NULL` early return is outside this model, which takes a
GUID value rather than a pointer). -/
def GetGuidName (Protocol : EFI_GUID) : String :=
  GetGuidNameGo Protocol GuidMappings

/-- Number of `CompareGuid` calls the scan performs on a table
(instrumentation of the same loop). -/
def GetGuidNameComparisonsGo (Protocol : EFI_GUID) :
    List (EFI_GUID × String) → Nat
  | [] => 0
  | e :: rest =>
    if CompareGuid Protocol e.1 = 0 then 1
    else GetGuidNameComparisonsGo Protocol rest + 1

/-- Number of `CompareGuid` calls `GetGuidName` performs. -/
def GetGuidNameComparisons (Protocol : EFI_GUID) : Nat :=
  GetGuidNameComparisonsGo Protocol GuidMappings

/-! ## Protocol dispatch (`efi_hook_HandleProtocol`) -/

/-- `#define BOOT_DEVICE_HANDLE (EFI_HANDLE)0xDEADBEEF`. -/
def BOOT_DEVICE_HANDLE : Nat := 0xDEADBEEF

/-- `efi_handle_protocol_LoadedImage`: fills the load options and the
device path (no effect on the modelled state), stores the address of
the global `windows_loaded_image` (passed in as `loadedImageAddr`) in
`*interface` and returns `EFI_SUCCESS`. -/
def efi_handle_protocol_LoadedImage (loadedImageAddr handle ifaceIn : Nat) :
    EfiStatus × Nat :=
  (.success, loadedImageAddr)

/-- `efi_handle_protocol_DevicePath`: for a handle other than
`BOOT_DEVICE_HANDLE` returns `EFI_UNSUPPORTED` without writing
`*interface`; otherwise stores the address of the constant boot device
path (passed in as `devicePathAddr`) and returns `EFI_SUCCESS`. -/
def efi_handle_protocol_DevicePath (devicePathAddr handle ifaceIn : Nat) :
    EfiStatus × Nat :=
  if handle ≠ BOOT_DEVICE_HANDLE then (.unsupported, ifaceIn)
  else (.success, devicePathAddr)

/-- `efi_hook_HandleProtocol`: resolves the GUID to a name via
`GetGuidName` and dispatches on the name with `strcmp`; every other
GUID returns `EFI_UNSUPPORTED` and leaves `*interface` untouched.  The
result pair is `(status, value of *interface after the call)`; the
addresses of the two global interface objects are parameters. -/
def efi_hook_HandleProtocol (loadedImageAddr devicePathAddr handle : Nat)
    (guid : EFI_GUID) (ifaceIn : Nat) : EfiStatus × Nat :=
  let protocolName := GetGuidName guid
  if protocolName = "gEfiLoadedImageProtocolGuid" then
    efi_handle_protocol_LoadedImage loadedImageAddr handle ifaceIn
  else if protocolName = "gEfiDevicePathProtocolGuid" then
    efi_handle_protocol_DevicePath devicePathAddr handle ifaceIn
  else
    (.unsupported, ifaceIn)

/-! ## PE loader and relocator

Buffers (the `.reloc` segment and the raw image) are byte-addressed
memories `Nat → Nat`; multi-byte reads are little-endian, matching the
target. -/

def Mem : Type := Nat → Nat

/-- One byte of a memory. -/
def readByte (m : Mem) (a : Nat) : Nat := m a % 256

/-- `w` little-endian bytes starting at `a`. -/
def readLE (m : Mem) (a : Nat) : Nat → Nat
  | 0 => 0
  | w + 1 => readByte m a + 256 * readLE m (a + 1) w

/-- Little-endian `uint16_t` load. -/
def read16 (m : Mem) (a : Nat) : Nat := readLE m a 2

/-- Little-endian `uint32_t` load. -/
def read32 (m : Mem) (a : Nat) : Nat := readLE m a 4

/-- Little-endian `uint64_t` load. -/
def read64 (m : Mem) (a : Nat) : Nat := readLE m a 8

/-- Little-endian `uint64_t` store at `[a, a + 8)`. -/
def write64 (m : Mem) (a v : Nat) : Mem :=
  fun x => if a ≤ x ∧ x < a + 8 then v / 256 ^ (x - a) % 256 else m x

/-- `chunk->va_offset` (the page RVA), the first header field. -/
def chunk_va_offset (seg : Mem) (chunkAddr : Nat) : Nat :=
  read32 seg chunkAddr

/-- `chunk->total_size`, the second header field. -/
def chunk_total_size (seg : Mem) (chunkAddr : Nat) : Nat :=
  read32 seg (chunkAddr + 4)

/-- `num_relocs = (chunk->total_size - sizeof(header)) / sizeof(entry)`
with `uint32_t` wrap-around on the subtraction. -/
def chunk_num_relocs (seg : Mem) (chunkAddr : Nat) : Nat :=
  (chunk_total_size seg chunkAddr + 2 ^ 32 - 8) % 2 ^ 32 / 2

/-- The `i`-th 16-bit relocation entry of the chunk (the entries start
right after the 8-byte header).  Low 12 bits = `offset`, high 4 bits =
`type` (little-endian bitfield layout). -/
def relocEntry (seg : Mem) (chunkAddr i : Nat) : Nat :=
  read16 seg (chunkAddr + 8 + 2 * i)

/-- `relocs[i].type`. -/
def relocType (seg : Mem) (chunkAddr i : Nat) : Nat :=
  relocEntry seg chunkAddr i / 4096

/-- `raw_image_vs_PE_bias + relocs[i].offset + chunk->va_offset`: the
byte address of the 8-byte field entry `i` patches. -/
def relocTarget (seg : Mem) (chunkAddr bias i : Nat) : Nat :=
  bias + (relocEntry seg chunkAddr i % 4096 + chunk_va_offset seg chunkAddr)

/-- Body of the `parse_chunk_relocations` loop for index `i`: when the
entry type is `IMAGE_REL_BASED_DIR64`, overwrite the 8-byte value at
the target with `old - IMAGE_BASE + bias` in `uint64_t` arithmetic;
otherwise the image is untouched. -/
def applyReloc (seg : Mem) (chunkAddr bias : Nat) (m : Mem) (i : Nat) : Mem :=
  if relocType seg chunkAddr i = IMAGE_REL_BASED_DIR64 then
    let loc := relocTarget seg chunkAddr bias i
    write64 m loc ((read64 m loc + (2 ^ 64 - IMAGE_BASE) + bias % 2 ^ 64) % 2 ^ 64)
  else m

/-- `parse_chunk_relocations`: iterates the chunk entries in order. -/
def parse_chunk_relocations (seg : Mem) (chunkAddr bias : Nat) (m : Mem) : Mem :=
  (List.range (chunk_num_relocs seg chunkAddr)).foldl (applyReloc seg chunkAddr bias) m

/-- The `while` loop of `parse_reloc_table`: starting at `pos`, while
the cursor is below `segment_end`, break if the chunk reports total
size 0, otherwise process the chunk and advance the cursor by
`chunk->total_size`.  Returns the cursor positions of the chunks that
were processed (in visit order) together with the patched image. -/
def parse_reloc_table_go (seg : Mem) (bias : Nat) (img : Mem) (pos endPos : Nat) :
    List Nat × Mem :=
  if hlt : pos < endPos then
    if h0 : chunk_total_size seg pos = 0 then ([], img)
    else
      let img' := parse_chunk_relocations seg pos bias img
      let r := parse_reloc_table_go seg bias img' (pos + chunk_total_size seg pos) endPos
      (pos :: r.1, r.2)
  else ([], img)
termination_by endPos - pos
decreasing_by omega

/-- `parse_reloc_table`: interprets the segment buffer
`[buf, buf + bufsz)` as the PE `.reloc` stream and walks it. -/
def parse_reloc_table (seg : Mem) (bufAddr bufsz bias : Nat) (img : Mem) :
    List Nat × Mem :=
  parse_reloc_table_go seg bias img bufAddr (bufAddr + bufsz)

/-- Cursor position of the `k`-th chunk of the walk chain (position 0
is the segment start; each step advances by the total size the chunk
at the current position reports). -/
def chainPos (seg : Mem) (start : Nat) : Nat → Nat
  | 0 => start
  | k + 1 => chainPos seg start k + chunk_total_size seg (chainPos seg start k)

/-! ## Segment copy (`kimage_load_pe_segment`, `kimage_load_pe`) -/

/-- The fields of `struct kexec_segment` the PE loader reads. -/
structure PESegment where
  mem   : Nat
  bufsz : Nat
  memsz : Nat
deriving DecidableEq, Repr

/-- `-EFAULT` (Linux errno 14). -/
def EFAULT_NEG : Int := -14

/-- The copy loop of `kimage_load_pe_segment`: splits the segment into
page-granularity chunks; each iteration attempts one
`copy_from_user` (outcome given by the oracle `copyFail`, indexed by
chunk number) and returns `-EFAULT` immediately when it fails, leaving
the remaining chunks uncopied.  Result: `(return value, list of
(chunk index, uchunk) copies attempted)`. -/
def kimage_load_pe_segment_go (copyFail : Nat → Bool)
    (chunkIdx maddr ubytes mbytes : Nat) : Int × List (Nat × Nat) :=
  if hm : mbytes = 0 then (0, [])
  else
    let mchunk := min mbytes (PAGE_SIZE - maddr % PAGE_SIZE)
    let uchunk := min ubytes mchunk
    if copyFail chunkIdx then (EFAULT_NEG, [(chunkIdx, uchunk)])
    else
      let r := kimage_load_pe_segment_go copyFail (chunkIdx + 1) (maddr + mchunk)
                 (ubytes - uchunk) (mbytes - mchunk)
      (r.1, (chunkIdx, uchunk) :: r.2)
termination_by mbytes
decreasing_by
  have h1 : maddr % PAGE_SIZE < PAGE_SIZE := Nat.mod_lt _ (by decide)
  omega

/-- `kimage_load_pe_segment`: runs the copy loop over the whole
segment (`maddr = segment->mem`, `ubytes = segment->bufsz`,
`mbytes = segment->memsz`). -/
def kimage_load_pe_segment (copyFail : Nat → Bool) (seg : PESegment) :
    Int × List (Nat × Nat) :=
  kimage_load_pe_segment_go copyFail 0 seg.mem seg.bufsz seg.memsz

/-- `kimage_load_pe` copies every segment in turn with
`kimage_load_pe_segment(image, &image->segment[i])` and DISCARDS each
return value (the function returns `void` and afterwards proceeds
unconditionally to `parse_reloc_table` and then the caller runs the
guest).  The model returns the list of the discarded per-segment
results so that theorems can talk about them; the loop itself never
aborts. -/
def kimage_load_pe (copyFail : Nat → Nat → Bool) (segs : List PESegment) :
    List (Int × List (Nat × Nat)) :=
  (List.range segs.length).map fun i =>
    kimage_load_pe_segment (copyFail i) (segs.getD i ⟨0, 0, 0⟩)

/-! ## Lemmas about `efi_unregister_allocation` -/

/-- Range containment test used by the unregister scan. -/
def ContainsAddr (d : EFI_MEMORY_DESCRIPTOR) (a : Nat) : Prop :=
  descLo d ≤ a ∧ a < descHi d

instance (d : EFI_MEMORY_DESCRIPTOR) (a : Nat) : Decidable (ContainsAddr d a) := by
  unfold ContainsAddr; infer_instance

lemma unregister_no_containing (a c : Nat) (L : Ledger)
    (h : ∀ d ∈ L, ¬ ContainsAddr d a) :
    efi_unregister_allocation a c L = (.invalidParameter, L) := by
  induction L with
  | nil => rfl
  | cons d rest ih =>
    have hd : ¬ ContainsAddr d a := h d (by simp)
    have hcond : a < d.phys_addr ∨ d.phys_addr + d.num_pages * PAGE_SIZE ≤ a := by
      unfold ContainsAddr descLo descHi at hd; omega
    simp only [efi_unregister_allocation, if_pos hcond,
      ih fun e he => h e (List.mem_cons_of_mem _ he)]

lemma unregister_first_containing_mismatch (a c : Nat) (L₁ L₂ : Ledger)
    (d : EFI_MEMORY_DESCRIPTOR)
    (hpre : ∀ e ∈ L₁, ¬ ContainsAddr e a) (hd : ContainsAddr d a)
    (hmis : ¬ (a = d.phys_addr ∧ d.num_pages = c)) :
    efi_unregister_allocation a c (L₁ ++ d :: L₂) =
      (.invalidParameter, L₁ ++ d :: L₂) := by
  induction L₁ with
  | nil =>
    have hcond : ¬ (a < d.phys_addr ∨ d.phys_addr + d.num_pages * PAGE_SIZE ≤ a) := by
      unfold ContainsAddr descLo descHi at hd; omega
    have hmm : a - d.phys_addr ≠ 0 ∨ d.num_pages ≠ c := by
      unfold ContainsAddr descLo descHi at hd; omega
    simp only [List.nil_append, efi_unregister_allocation, if_neg hcond, if_pos hmm]
  | cons e L₁' ih =>
    have he : ¬ ContainsAddr e a := hpre e (by simp)
    have hcond : a < e.phys_addr ∨ e.phys_addr + e.num_pages * PAGE_SIZE ≤ a := by
      unfold ContainsAddr descLo descHi at he; omega
    have ih' := ih fun x hx => hpre x (List.mem_cons_of_mem _ hx)
    simp only [List.cons_append, efi_unregister_allocation, if_pos hcond,
      List.append_eq, ih']

lemma unregister_first_containing_match (a c : Nat) (L₁ L₂ : Ledger)
    (d : EFI_MEMORY_DESCRIPTOR)
    (hpre : ∀ e ∈ L₁, ¬ ContainsAddr e a) (hd : ContainsAddr d a)
    (ha : a = d.phys_addr) (hc : d.num_pages = c) :
    efi_unregister_allocation a c (L₁ ++ d :: L₂) =
      (.success, L₁ ++ { d with type := EfiConventionalMemory } :: L₂) := by
  induction L₁ with
  | nil =>
    have hcond : ¬ (a < d.phys_addr ∨ d.phys_addr + d.num_pages * PAGE_SIZE ≤ a) := by
      unfold ContainsAddr descLo descHi at hd; omega
    have hmm : ¬ (a - d.phys_addr ≠ 0 ∨ d.num_pages ≠ c) := by omega
    simp only [List.nil_append, efi_unregister_allocation, if_neg hcond, if_neg hmm]
  | cons e L₁' ih =>
    have he : ¬ ContainsAddr e a := hpre e (by simp)
    have hcond : a < e.phys_addr ∨ e.phys_addr + e.num_pages * PAGE_SIZE ≤ a := by
      unfold ContainsAddr descLo descHi at he; omega
    have ih' := ih fun x hx => hpre x (List.mem_cons_of_mem _ hx)
    simp only [List.cons_append, efi_unregister_allocation, if_pos hcond,
      List.append_eq, ih']

lemma unregister_success_shape (a c : Nat) (L L' : Ledger)
    (h : efi_unregister_allocation a c L = (.success, L')) :
    ∃ L₁ d L₂, L = L₁ ++ d :: L₂ ∧
      L' = L₁ ++ { d with type := EfiConventionalMemory } :: L₂ ∧
      (∀ e ∈ L₁, ¬ ContainsAddr e a) ∧ ContainsAddr d a ∧
      a = d.phys_addr ∧ d.num_pages = c := by
  induction L generalizing L' with
  | nil => simp [efi_unregister_allocation] at h
  | cons d rest ih =>
    rw [efi_unregister_allocation] at h
    by_cases hcond : a < d.phys_addr ∨ d.phys_addr + d.num_pages * PAGE_SIZE ≤ a
    · rw [if_pos hcond] at h
      simp only [Prod.mk.injEq] at h
      obtain ⟨h1, h2⟩ := h
      obtain ⟨L₁, d₀, L₂, hrest, hres, hpre, hcont, ha, hc⟩ := ih _ (Prod.ext h1 rfl)
      refine ⟨d :: L₁, d₀, L₂, by simp [hrest], ?_, ?_, hcont, ha, hc⟩
      · subst h2
        rw [List.cons_append]
        exact congrArg (d :: ·) hres
      · intro e he
        rcases List.mem_cons.mp he with rfl | he'
        · unfold ContainsAddr descLo descHi; omega
        · exact hpre e he'
    · rw [if_neg hcond] at h
      by_cases hmm : a - d.phys_addr ≠ 0 ∨ d.num_pages ≠ c
      · rw [if_pos hmm] at h
        simp at h
      · rw [if_neg hmm] at h
        simp only [Prod.mk.injEq] at h
        refine ⟨[], d, rest, rfl, by simp [← h.2], by simp, ?_, by omega, by omega⟩
        unfold ContainsAddr descLo descHi; omega

/-! ## Claims about `free_pages` (C2, C10) -/

/-- A reachable ledger holding two overlapping active descriptors: two
fixed-address allocations at 0x1000, first for 2 pages, then for 1. -/
def overlapLedger : Ledger :=
  memRun [] [.allocatePages 2 2 2 4096 none, .allocatePages 2 2 1 4096 none]

/-- **C2 counterexample.**  The claim says: if some descriptor matches
`[address, address + count*PAGE)` exactly, `free_pages` re-tags it and
returns success.  In `overlapLedger` the second descriptor matches
`(4096, 1)` exactly, yet the call returns `EFI_INVALID_PARAMETER`,
because the scan stops at the FIRST descriptor containing the address
(the 2-page allocation) and that one has a different page count. -/
theorem free_pages_exact_match_shadowed :
    (∃ d ∈ overlapLedger, d.phys_addr = 4096 ∧ d.num_pages = 1) ∧
    efi_hook_FreePages 4096 1 overlapLedger =
      (.invalidParameter, overlapLedger) := by decide

/-- **C2 (amended).**  `free_pages(address, count)` scans the ledger in
order for the FIRST descriptor whose range contains `address`.  If no
descriptor contains it, or that first containing descriptor does not
start exactly at `address` with exactly `count` pages, the call returns
`InvalidFreeRequest` and every descriptor is left byte-for-byte
unchanged; if it does match exactly, it is re-tagged as free
(`EfiConventionalMemory`) and the call returns success. -/
theorem free_pages_first_containing_spec (a c : Nat) (L : Ledger) :
    ((∀ d ∈ L, ¬ ContainsAddr d a) →
      efi_hook_FreePages a c L = (.invalidParameter, L)) ∧
    (∀ L₁ d L₂, L = L₁ ++ d :: L₂ → (∀ e ∈ L₁, ¬ ContainsAddr e a) →
      ContainsAddr d a →
      ((¬ (a = d.phys_addr ∧ d.num_pages = c)) →
        efi_hook_FreePages a c L = (.invalidParameter, L)) ∧
      (a = d.phys_addr → d.num_pages = c →
        efi_hook_FreePages a c L =
          (.success, L₁ ++ { d with type := EfiConventionalMemory } :: L₂))) := by
  refine ⟨fun h => unregister_no_containing a c L h, ?_⟩
  rintro L₁ d L₂ rfl hpre hd
  exact ⟨fun hm => unregister_first_containing_mismatch a c L₁ L₂ d hpre hd hm,
         fun h1 h2 => unregister_first_containing_match a c L₁ L₂ d hpre hd h1 h2⟩

/-- Witness for the amended C2 theorem at a concrete input: an exact
match is freed with success; a mismatched count is rejected without
mutation. -/
theorem free_pages_first_containing_spec_witness :
    efi_hook_FreePages 4096 1 [⟨2, 0, 4096, 0, 1, 15, 0⟩] =
      (.success, [⟨7, 0, 4096, 0, 1, 15, 0⟩]) ∧
    efi_hook_FreePages 4096 2 [⟨2, 0, 4096, 0, 1, 15, 0⟩] =
      (.invalidParameter, [⟨2, 0, 4096, 0, 1, 15, 0⟩]) :=
  ⟨((free_pages_first_containing_spec 4096 1 [⟨2, 0, 4096, 0, 1, 15, 0⟩]).2
      [] ⟨2, 0, 4096, 0, 1, 15, 0⟩ [] rfl (by simp) (by decide)).2 rfl rfl,
   ((free_pages_first_containing_spec 4096 2 [⟨2, 0, 4096, 0, 1, 15, 0⟩]).2
      [] ⟨2, 0, 4096, 0, 1, 15, 0⟩ [] rfl (by simp) (by decide)).1 (by decide)⟩

/-- **C10.**  A successful `free_pages` is idempotent: the exact-match
scan never tests whether the located descriptor is still active, so
repeating the identical `(address, count)` free succeeds again and
leaves the ledger exactly as the first free left it. -/
theorem free_pages_double_free_accepted (a c : Nat) (L L' : Ledger)
    (h : efi_hook_FreePages a c L = (.success, L')) :
    efi_hook_FreePages a c L' = (.success, L') := by
  unfold efi_hook_FreePages at h ⊢
  obtain ⟨L₁, d, L₂, hL, hL', hpre, hcont, ha, hc⟩ :=
    unregister_success_shape a c L L' h
  have hcont' : ContainsAddr { d with type := EfiConventionalMemory } a := by
    unfold ContainsAddr descLo descHi at hcont ⊢
    simpa using hcont
  have h2 := unregister_first_containing_match a c L₁ L₂
    { d with type := EfiConventionalMemory } hpre hcont' ha hc
  rw [hL']
  exact h2

/-- Witness for C10 at a concrete input: free a 1-page descriptor at
0x1000, then free it again with the identical arguments. -/
theorem free_pages_double_free_accepted_witness :
    efi_hook_FreePages 4096 1 [⟨7, 0, 4096, 0, 1, 15, 0⟩] =
      (.success, [⟨7, 0, 4096, 0, 1, 15, 0⟩]) :=
  free_pages_double_free_accepted 4096 1 [⟨2, 0, 4096, 0, 1, 15, 0⟩]
    [⟨7, 0, 4096, 0, 1, 15, 0⟩] (by decide)

/-! ## Claims about `get_memory_map` (C3, C8) -/

/-- Length of the per-descriptor serialization. -/
lemma encode_descriptor_length (d : EFI_MEMORY_DESCRIPTOR) :
    (encode_descriptor d).length = DESCRIPTOR_SIZE := by
  simp [encode_descriptor, encodeLE, DESCRIPTOR_SIZE]

lemma flatMap_encode_length (L : Ledger) :
    (L.flatMap encode_descriptor).length = L.length * DESCRIPTOR_SIZE := by
  induction L with
  | nil => simp
  | cons d rest ih =>
    simp [List.flatMap_cons, ih, encode_descriptor_length, Nat.succ_mul, Nat.add_comm]

/-- **C3.**  The two-call convention of `get_memory_map`: an undersized
buffer yields `BufferTooSmall`, the exact required size
`count * descriptor_size` written back through the size parameter, and
an untouched buffer (and untouched map key); a large-enough buffer
yields success, with every descriptor (free and active) serialized in
ledger order at the front of the buffer and exactly
`count * descriptor_size` reported as the byte count written. -/
theorem getMemoryMap_two_call_spec (sz key : Nat) (buf : List Nat) (L : Ledger) :
    (sz < L.length * DESCRIPTOR_SIZE →
      efi_hook_GetMemoryMap sz buf key L =
        (.bufferTooSmall, L.length * DESCRIPTOR_SIZE, buf, key, DESCRIPTOR_SIZE, 1)) ∧
    (L.length * DESCRIPTOR_SIZE ≤ sz →
      efi_hook_GetMemoryMap sz buf key L =
        (.success, L.length * DESCRIPTOR_SIZE,
         L.flatMap encode_descriptor ++ buf.drop (L.length * DESCRIPTOR_SIZE),
         efi_mem_map_epoch, DESCRIPTOR_SIZE, 1)) ∧
    (L.flatMap encode_descriptor).length = L.length * DESCRIPTOR_SIZE := by
  refine ⟨fun h => ?_, fun h => ?_, flatMap_encode_length L⟩
  · simp only [efi_hook_GetMemoryMap, efi_get_mem_map_size, if_pos h]
  · simp only [efi_hook_GetMemoryMap, efi_get_mem_map_size,
      if_neg (Nat.not_lt.mpr h)]

/-- Witness for C3 at a concrete input: one descriptor, first a 0-byte
buffer, then a 48-byte buffer. -/
theorem getMemoryMap_two_call_spec_witness :
    efi_hook_GetMemoryMap 0 [] 7 [⟨2, 0, 4096, 0, 1, 15, 0⟩] =
      (.bufferTooSmall, 48, [], 7, 48, 1) ∧
    efi_hook_GetMemoryMap 48 (List.replicate 48 9) 7 [⟨2, 0, 4096, 0, 1, 15, 0⟩] =
      (.success, 48, [⟨2, 0, 4096, 0, 1, 15, 0⟩].flatMap encode_descriptor, 0, 48, 1) :=
  ⟨(getMemoryMap_two_call_spec 0 7 [] [⟨2, 0, 4096, 0, 1, 15, 0⟩]).1 (by decide),
   ((getMemoryMap_two_call_spec 48 7 (List.replicate 48 9)
       [⟨2, 0, 4096, 0, 1, 15, 0⟩]).2.1 (by decide)).trans (by decide)⟩

/-- **C8 counterexample.**  The claim says the map key strictly
increases across successful calls.  Two successful calls (empty ledger,
then a one-descriptor ledger) both return map key 0, refuting strict
growth at this explicit input. -/
theorem mapKey_not_strictly_increasing :
    (efi_hook_GetMemoryMap 0 [] 7 []).1 = .success ∧
    (efi_hook_GetMemoryMap 48 (List.replicate 48 0) 7
        [⟨2, 0, 4096, 0, 1, 15, 0⟩]).1 = .success ∧
    ¬ ((efi_hook_GetMemoryMap 0 [] 7 []).2.2.2.1 <
       (efi_hook_GetMemoryMap 48 (List.replicate 48 0) 7
          [⟨2, 0, 4096, 0, 1, 15, 0⟩]).2.2.2.1) := by decide

/-- **C8 (amended).**  `efi_mem_map_epoch` is never incremented
anywhere in the repository, so the map key of every successful
`get_memory_map` call is the same constant 0: across a session the key
is monotonically non-decreasing only because it is constant, never
strictly increasing. -/
theorem mapKey_constant_spec (sz₁ key₁ sz₂ key₂ : Nat) (buf₁ buf₂ : List Nat)
    (L₁ L₂ : Ledger)
    (h₁ : (efi_hook_GetMemoryMap sz₁ buf₁ key₁ L₁).1 = .success)
    (h₂ : (efi_hook_GetMemoryMap sz₂ buf₂ key₂ L₂).1 = .success) :
    (efi_hook_GetMemoryMap sz₁ buf₁ key₁ L₁).2.2.2.1 = efi_mem_map_epoch ∧
    (efi_hook_GetMemoryMap sz₂ buf₂ key₂ L₂).2.2.2.1 =
      (efi_hook_GetMemoryMap sz₁ buf₁ key₁ L₁).2.2.2.1 := by
  by_cases hA : sz₁ < efi_get_mem_map_size L₁
  · exfalso
    simp [efi_hook_GetMemoryMap, hA] at h₁
  · by_cases hB : sz₂ < efi_get_mem_map_size L₂
    · exfalso
      simp [efi_hook_GetMemoryMap, hB] at h₂
    · simp [efi_hook_GetMemoryMap, hA, hB]

/-- Witness for the amended C8 theorem: both concrete successful calls
report key 0. -/
theorem mapKey_constant_spec_witness :
    (efi_hook_GetMemoryMap 0 [] 7 []).2.2.2.1 = efi_mem_map_epoch ∧
    (efi_hook_GetMemoryMap 48 (List.replicate 48 0) 7
        [⟨2, 0, 4096, 0, 1, 15, 0⟩]).2.2.2.1 =
      (efi_hook_GetMemoryMap 0 [] 7 []).2.2.2.1 :=
  mapKey_constant_spec 0 7 48 7 [] (List.replicate 48 0) []
    [⟨2, 0, 4096, 0, 1, 15, 0⟩] (by decide) (by decide)

/-! ## Claims about the GUID registry and protocol dispatch (C7, C6) -/

lemma lor_eq_zero_nat {a b : Nat} : a ||| b = 0 ↔ a = 0 ∧ b = 0 := by
  constructor
  · intro h
    have hb : ∀ i, a.testBit i = false ∧ b.testBit i = false := by
      intro i
      have := congrArg (fun n => n.testBit i) h
      simpa [Nat.testBit_or] using this
    exact ⟨Nat.zero_of_testBit_eq_false fun i => (hb i).1,
           Nat.zero_of_testBit_eq_false fun i => (hb i).2⟩
  · rintro ⟨rfl, rfl⟩
    rfl

/-- Equality of two GUIDs as 128-bit values (the four 32-bit words
`CompareGuid` looks at). -/
def sameGuidBits (g1 g2 : EFI_GUID) : Prop :=
  ∀ i < 4, guidWord g1 i = guidWord g2 i

instance (g1 g2 : EFI_GUID) : Decidable (sameGuidBits g1 g2) := by
  unfold sameGuidBits; infer_instance

lemma guidWord_lt (g : EFI_GUID) (i : Nat) : guidWord g i < 2 ^ 32 := by
  rcases i with _ | _ | _ | i <;>
    · simp only [guidWord]
      omega

/-- `CompareGuid` returns 0 exactly when the two GUIDs agree on all
128 bits. -/
lemma CompareGuid_eq_zero_iff (g1 g2 : EFI_GUID) :
    CompareGuid g1 g2 = 0 ↔ sameGuidBits g1 g2 := by
  have h1 := guidWord_lt g1
  have h2 := guidWord_lt g2
  unfold CompareGuid
  simp only [lor_eq_zero_nat]
  constructor
  · rintro ⟨⟨⟨d0, d1⟩, d2⟩, d3⟩ i hi
    have b1 := h1 i
    have b2 := h2 i
    interval_cases i
    · have := h1 0; have := h2 0; omega
    · have := h1 1; have := h2 1; omega
    · have := h1 2; have := h2 2; omega
    · have := h1 3; have := h2 3; omega
  · intro h
    have e0 := h 0 (by omega)
    have e1 := h 1 (by omega)
    have e2 := h 2 (by omega)
    have e3 := h 3 (by omega)
    have b0 := h2 0
    have b1 := h2 1
    have b2 := h2 2
    have b3 := h2 3
    refine ⟨⟨⟨?_, ?_⟩, ?_⟩, ?_⟩ <;> omega

lemma scan_name_eq_find (g : EFI_GUID) (T : List (EFI_GUID × String)) :
    GetGuidNameGo g T =
      ((T.find? fun e => CompareGuid g e.1 == 0).map Prod.snd).getD "<Unknown>" := by
  induction T with
  | nil => rfl
  | cons e rest ih =>
    by_cases h : CompareGuid g e.1 = 0
    · rw [List.find?_cons_of_pos _ (by simp [h])]
      simp [GetGuidNameGo, h]
    · rw [List.find?_cons_of_neg _ (by simp [h])]
      simp only [GetGuidNameGo, if_neg h]
      exact ih

lemma scan_absent_name (g : EFI_GUID) (T : List (EFI_GUID × String))
    (h : ∀ e ∈ T, CompareGuid g e.1 ≠ 0) :
    GetGuidNameGo g T = "<Unknown>" := by
  induction T with
  | nil => rfl
  | cons e rest ih =>
    have he := h e (by simp)
    simp only [GetGuidNameGo, if_neg he,
      ih fun x hx => h x (List.mem_cons_of_mem _ hx)]

lemma scan_absent_comparisons (g : EFI_GUID) (T : List (EFI_GUID × String))
    (h : ∀ e ∈ T, CompareGuid g e.1 ≠ 0) :
    GetGuidNameComparisonsGo g T = T.length := by
  induction T with
  | nil => rfl
  | cons e rest ih =>
    have he := h e (by simp)
    simp only [GetGuidNameComparisonsGo, if_neg he,
      ih fun x hx => h x (List.mem_cons_of_mem _ hx), List.length_cons]

lemma scan_comparisons_le (g : EFI_GUID) (T : List (EFI_GUID × String)) :
    GetGuidNameComparisonsGo g T ≤ T.length := by
  induction T with
  | nil => simp [GetGuidNameComparisonsGo]
  | cons e rest ih =>
    by_cases h : CompareGuid g e.1 = 0
    · simp [GetGuidNameComparisonsGo, h]
    · simp only [GetGuidNameComparisonsGo, if_neg h, List.length_cons]
      omega

lemma scan_result_cases (g : EFI_GUID) (T : List (EFI_GUID × String)) :
    GetGuidNameGo g T = "<Unknown>" ∨
    ∃ e ∈ T, CompareGuid g e.1 = 0 ∧ GetGuidNameGo g T = e.2 := by
  induction T with
  | nil => left; rfl
  | cons e rest ih =>
    by_cases h : CompareGuid g e.1 = 0
    · right
      exact ⟨e, by simp, h, by simp [GetGuidNameGo, h]⟩
    · rcases ih with hu | ⟨e', he', hc, hn⟩
      · left
        simpa [GetGuidNameGo, if_neg h] using hu
      · right
        refine ⟨e', List.mem_cons_of_mem _ he', hc, ?_⟩
        simpa [GetGuidNameGo, if_neg h] using hn


lemma GuidMappings_length : GuidMappings.length = NUM_GUID_MAPPINGS := by
  unfold GuidMappings
  simp only [List.length_append]
  norm_num [show GuidMappings_0.length = 50 by decide,
    show GuidMappings_1.length = 50 by decide,
    show GuidMappings_2.length = 50 by decide,
    show GuidMappings_3.length = 50 by decide,
    show GuidMappings_4.length = 50 by decide,
    show GuidMappings_5.length = 50 by decide,
    show GuidMappings_6.length = 50 by decide,
    show GuidMappings_7.length = 50 by decide,
    show GuidMappings_8.length = 41 by decide]
  rfl

/-- A concrete 128-bit value that occurs nowhere in the registry. -/
def absentGuid : EFI_GUID := ⟨0xDEADBEEF, 0xDEAD, 0xBEEF, [1, 2, 3, 4, 5, 6, 7, 8]⟩

lemma absentGuid_not_in_registry :
    ∀ e ∈ GuidMappings, ¬ sameGuidBits absentGuid e.1 := by
  unfold GuidMappings
  simp only [List.forall_mem_append]
  repeat' apply And.intro
  all_goals decide

/-- **C7.**  `GetGuidName` is the linear first-match scan over the
static registry: its result is the name of the first entry whose GUID
compares equal (`List.find?` order, so duplicate entries are shadowed
by their first occurrence); `CompareGuid` returning 0 is exactly
128-bit equality; for a GUID absent from the registry the scan returns
the literal `"<Unknown>"` marker after exactly `NUM_GUID_MAPPINGS`
comparisons, and it never performs more comparisons than the declared
registry length. -/
theorem GetGuidName_spec (g : EFI_GUID) :
    GetGuidName g =
      ((GuidMappings.find? fun e => CompareGuid g e.1 == 0).map Prod.snd).getD
        "<Unknown>" ∧
    (∀ e ∈ GuidMappings, (CompareGuid g e.1 = 0 ↔ sameGuidBits g e.1)) ∧
    ((∀ e ∈ GuidMappings, ¬ sameGuidBits g e.1) →
      GetGuidName g = "<Unknown>" ∧
      GetGuidNameComparisons g = NUM_GUID_MAPPINGS) ∧
    GetGuidNameComparisons g ≤ NUM_GUID_MAPPINGS := by
  refine ⟨scan_name_eq_find g GuidMappings,
          fun e _ => CompareGuid_eq_zero_iff g e.1,
          fun h => ?_,
          GuidMappings_length ▸ scan_comparisons_le g GuidMappings⟩
  have h' : ∀ e ∈ GuidMappings, CompareGuid g e.1 ≠ 0 := fun e he hc =>
    h e he ((CompareGuid_eq_zero_iff g e.1).mp hc)
  exact ⟨scan_absent_name g GuidMappings h',
         (scan_absent_comparisons g GuidMappings h').trans GuidMappings_length⟩

/-- Witness for C7: a concrete GUID absent from the registry yields the
unknown marker after exactly 441 comparisons. -/
theorem GetGuidName_spec_witness :
    GetGuidName absentGuid = "<Unknown>" ∧
    GetGuidNameComparisons absentGuid = NUM_GUID_MAPPINGS :=
  (GetGuidName_spec absentGuid).2.2.1 absentGuid_not_in_registry

/-- Core dispatch fact: a GUID matching no registry entry that carries
one of the two handled protocol names makes `HandleProtocol` return
`EFI_UNSUPPORTED` with the interface slot untouched. -/
lemma handleProtocol_no_match (liAddr dpAddr handle ifaceIn : Nat)
    (g : EFI_GUID)
    (h : ∀ e ∈ GuidMappings,
        (e.2 = "gEfiLoadedImageProtocolGuid" ∨ e.2 = "gEfiDevicePathProtocolGuid") →
        ¬ sameGuidBits g e.1) :
    efi_hook_HandleProtocol liAddr dpAddr handle g ifaceIn =
      (.unsupported, ifaceIn) := by
  have hres := scan_result_cases g GuidMappings
  have hname : GetGuidName g ≠ "gEfiLoadedImageProtocolGuid" ∧
      GetGuidName g ≠ "gEfiDevicePathProtocolGuid" := by
    unfold GetGuidName
    rcases hres with hu | ⟨e, he, hc, hn⟩
    · rw [hu]
      exact ⟨by decide, by decide⟩
    · rw [hn]
      constructor
      · intro hEq
        exact h e he (Or.inl hEq) ((CompareGuid_eq_zero_iff g e.1).mp hc)
      · intro hEq
        exact h e he (Or.inr hEq) ((CompareGuid_eq_zero_iff g e.1).mp hc)
  simp only [efi_hook_HandleProtocol, if_neg hname.1, if_neg hname.2]

/-- **C6 counterexample.**  The claim says an unhandled GUID yields
`Unsupported` with a NULL interface pointer.  The code does return
`EFI_UNSUPPORTED`, but it never writes through the `interface`
out-parameter on that path: with the caller slot previously holding
0x12345, it still holds 0x12345 (not 0) after the call. -/
theorem handleProtocol_unknown_guid_not_nulled :
    (efi_hook_HandleProtocol 0x111 0x222 0xDEADBEEF absentGuid 0x12345).1 =
      .unsupported ∧
    (efi_hook_HandleProtocol 0x111 0x222 0xDEADBEEF absentGuid 0x12345).2 =
      0x12345 ∧
    (0x12345 : Nat) ≠ 0 := by
  have h := handleProtocol_no_match 0x111 0x222 0xDEADBEEF 0x12345 absentGuid
    (fun e he _ => absentGuid_not_in_registry e he)
  exact ⟨by rw [h], by rw [h], by decide⟩

/-- **C6 (amended).**  For every GUID that (as a 128-bit value) matches
no registry entry named for the two handled protocols, `HandleProtocol`
returns `Unsupported` and leaves the caller interface pointer exactly
as it was — it does not write a null interface. -/
theorem handleProtocol_unknown_guid_spec (liAddr dpAddr handle ifaceIn : Nat)
    (g : EFI_GUID)
    (h : ∀ e ∈ GuidMappings,
        (e.2 = "gEfiLoadedImageProtocolGuid" ∨ e.2 = "gEfiDevicePathProtocolGuid") →
        ¬ sameGuidBits g e.1) :
    efi_hook_HandleProtocol liAddr dpAddr handle g ifaceIn =
      (.unsupported, ifaceIn) :=
  handleProtocol_no_match liAddr dpAddr handle ifaceIn g h

/-- Witness for the amended C6 theorem at a concrete unknown GUID. -/
theorem handleProtocol_unknown_guid_spec_witness :
    efi_hook_HandleProtocol 0x111 0x222 0xDEADBEEF absentGuid 0x12345 =
      (.unsupported, 0x12345) :=
  handleProtocol_unknown_guid_spec 0x111 0x222 0xDEADBEEF 0x12345 absentGuid
    (fun e he _ => absentGuid_not_in_registry e he)

/-! ## Claim C1: disjointness of active descriptor ranges -/

/-- The range `[lo, lo + pages*PAGE_SIZE)` intersects no active
descriptor of the ledger. -/
def RangeFreeOfActive (lo pages : Nat) (L : Ledger) : Prop :=
  ∀ d ∈ L, Active d → lo + pages * PAGE_SIZE ≤ descLo d ∨ descHi d ≤ lo

instance (lo pages : Nat) (L : Ledger) : Decidable (RangeFreeOfActive lo pages L) := by
  unfold RangeFreeOfActive; infer_instance

/-- Safety condition on one operation: any range the operation will
register must be disjoint from every currently active descriptor.  For
pool allocations (and the any-pages mode that delegates to them) this
reflects the host allocator handing out fresh memory — the backing
store of ledger entries is never returned to the host allocator, so a
fresh `kmalloc` block cannot overlap any registered range.  For
fixed-address allocations the code performs NO such check, which is
exactly what the counterexample exploits. -/
def StepSafe (L : Ledger) : MemOp → Prop
  | .allocatePool _ size host =>
      match host with
      | none => True
      | some a => RangeFreeOfActive a (NUM_PAGES size) L
  | .allocatePages ty _ count addr host =>
      if ty = AllocateAddress then RangeFreeOfActive addr count L
      else
        match host with
        | none => True
        | some a => RangeFreeOfActive a (NUM_PAGES (count * PAGE_SIZE)) L
  | .freePages _ _ => True

instance (L : Ledger) (op : MemOp) : Decidable (StepSafe L op) :=
  match op with
  | .allocatePool _ size host =>
    match host with
    | none => isTrue trivial
    | some a => inferInstanceAs (Decidable (RangeFreeOfActive a (NUM_PAGES size) L))
  | .allocatePages ty _ count addr host =>
    if hty : ty = AllocateAddress then
      decidable_of_iff (RangeFreeOfActive addr count L) (by simp [StepSafe, hty])
    else
      match host with
      | none => decidable_of_iff True (by simp [StepSafe, hty])
      | some a =>
        decidable_of_iff (RangeFreeOfActive a (NUM_PAGES (count * PAGE_SIZE)) L)
          (by simp [StepSafe, hty])
  | .freePages _ _ => isTrue trivial

/-- Every step of the trace satisfies `StepSafe` in the ledger state it
executes in. -/
def TraceSafe : Ledger → List MemOp → Prop
  | _, [] => True
  | L, op :: ops => StepSafe L op ∧ TraceSafe (memStep L op) ops

instance instDecTraceSafe : (L : Ledger) → (ops : List MemOp) → Decidable (TraceSafe L ops)
  | _, [] => isTrue trivial
  | L, op :: ops =>
    haveI : Decidable (TraceSafe (memStep L op) ops) := instDecTraceSafe _ _
    inferInstanceAs (Decidable (StepSafe L op ∧ TraceSafe (memStep L op) ops))

lemma register_preserves_activeDisjoint (mt pages addr : Nat) (L : Ledger)
    (hL : ActiveDisjoint L) (hfree : RangeFreeOfActive addr pages L) :
    ActiveDisjoint (efi_register_mem_allocation mt pages addr L) := by
  unfold efi_register_mem_allocation ActiveDisjoint at *
  rw [List.pairwise_append]
  refine ⟨hL, by simp, ?_⟩
  intro d hd e he
  simp only [List.mem_singleton] at he
  subst he
  intro hAd _
  have := hfree d hd hAd
  unfold RangesDisjoint descLo descHi at *
  simp only []
  omega

lemma retag_preserves_activeDisjoint (L₁ L₂ : Ledger) (d : EFI_MEMORY_DESCRIPTOR)
    (h : ActiveDisjoint (L₁ ++ d :: L₂)) :
    ActiveDisjoint (L₁ ++ { d with type := EfiConventionalMemory } :: L₂) := by
  have hAd' : ¬ Active { d with type := EfiConventionalMemory } := by
    simp [Active]
  unfold ActiveDisjoint at *
  rw [List.pairwise_append] at h ⊢
  obtain ⟨h1, h2, h3⟩ := h
  rw [List.pairwise_cons] at h2 ⊢
  refine ⟨h1, ⟨?_, h2.2⟩, ?_⟩
  · intro y _ hAx
    exact absurd hAx hAd'
  · intro x hx y hy
    rcases List.mem_cons.mp hy with rfl | hy'
    · intro _ hAy
      exact absurd hAy hAd'
    · exact h3 x hx y (List.mem_cons_of_mem _ hy')

lemma unregister_ledger_cases (a c : Nat) (L : Ledger) :
    (efi_unregister_allocation a c L).2 = L ∨
    ∃ L₁ d L₂, L = L₁ ++ d :: L₂ ∧
      (efi_unregister_allocation a c L).2 =
        L₁ ++ { d with type := EfiConventionalMemory } :: L₂ := by
  induction L with
  | nil => left; rfl
  | cons d rest ih =>
    by_cases hcond : a < d.phys_addr ∨ d.phys_addr + d.num_pages * PAGE_SIZE ≤ a
    · have hstep : (efi_unregister_allocation a c (d :: rest)).2 =
          d :: (efi_unregister_allocation a c rest).2 := by
        rw [efi_unregister_allocation, if_pos hcond]
      rcases ih with h | ⟨L₁, d₀, L₂, hL, hres⟩
      · left
        rw [hstep, h]
      · right
        refine ⟨d :: L₁, d₀, L₂, by simp [hL], ?_⟩
        rw [hstep, hres, List.cons_append]
    · by_cases hmm : a - d.phys_addr ≠ 0 ∨ d.num_pages ≠ c
      · left
        rw [efi_unregister_allocation, if_neg hcond, if_pos hmm]
      · right
        refine ⟨[], d, rest, rfl, ?_⟩
        rw [efi_unregister_allocation, if_neg hcond, if_neg hmm]
        rfl

lemma unregister_preserves_activeDisjoint (a c : Nat) (L : Ledger)
    (hL : ActiveDisjoint L) :
    ActiveDisjoint (efi_unregister_allocation a c L).2 := by
  rcases unregister_ledger_cases a c L with h | ⟨L₁, d, L₂, hEq, hres⟩
  · rw [h]; exact hL
  · rw [hres]
    exact retag_preserves_activeDisjoint L₁ L₂ d (hEq ▸ hL)

lemma memStep_preserves_activeDisjoint (L : Ledger) (op : MemOp)
    (hL : ActiveDisjoint L) (hs : StepSafe L op) :
    ActiveDisjoint (memStep L op) := by
  cases op with
  | allocatePool t size host =>
    cases host with
    | none => exact hL
    | some a =>
      exact register_preserves_activeDisjoint t (NUM_PAGES size) a L hL hs
  | allocatePages ty mt count addr host =>
    simp only [StepSafe] at hs
    by_cases hmt : mt ≠ EfiLoaderData ∧ mt ≠ EfiConventionalMemory ∧ mt ≠ EfiLoaderCode
    · simpa [memStep, efi_hook_AllocatePages, if_pos hmt] using hL
    · by_cases hty : ty = AllocateAddress
      · rw [if_pos hty] at hs
        simpa [memStep, efi_hook_AllocatePages, if_neg hmt, if_pos hty] using
          register_preserves_activeDisjoint mt count addr L hL hs
      · rw [if_neg hty] at hs
        by_cases hany : ty = AllocateAnyPages
        · cases host with
          | none =>
            simpa [memStep, efi_hook_AllocatePages, if_neg hmt, if_neg hty,
              if_pos hany, efi_hook_AllocatePool] using hL
          | some a =>
            simpa [memStep, efi_hook_AllocatePages, if_neg hmt, if_neg hty,
              if_pos hany, efi_hook_AllocatePool] using
              register_preserves_activeDisjoint mt
                (NUM_PAGES (count * PAGE_SIZE)) a L hL hs
        · simpa [memStep, efi_hook_AllocatePages, if_neg hmt, if_neg hty,
            if_neg hany] using hL
  | freePages a c =>
    exact unregister_preserves_activeDisjoint a c L hL

/-- **C1 counterexample.**  Two fixed-address one-page allocations at
the same physical address 0x1000 — a legal operation sequence, since
`AllocateAddress` performs no overlap check — leave the ledger with two
ACTIVE descriptors covering the identical range, violating pairwise
disjointness. -/
theorem allocateAddress_overlap_breaks_disjointness :
    ¬ ActiveDisjoint (memRun []
      [.allocatePages 2 2 1 4096 none, .allocatePages 2 2 1 4096 none]) := by
  decide

/-- **C1 (amended).**  Active descriptor ranges stay pairwise disjoint
along any operation sequence PROVIDED every allocation registers a
range disjoint from all currently active descriptors: this holds
automatically for pool / any-pages allocations (fresh host memory,
never handed back), but must be assumed for fixed-address allocations,
which the code registers without any overlap check. -/
theorem memRun_preserves_activeDisjoint (L : Ledger) (ops : List MemOp)
    (hL : ActiveDisjoint L) (hsafe : TraceSafe L ops) :
    ActiveDisjoint (memRun L ops) := by
  induction ops generalizing L with
  | nil => exact hL
  | cons op ops ih =>
    exact ih _ (memStep_preserves_activeDisjoint L op hL hsafe.1) hsafe.2

/-- Witness for the amended C1 theorem: a pool allocation, a disjoint
fixed-address allocation and a free, starting from the empty ledger. -/
theorem memRun_preserves_activeDisjoint_witness :
    ActiveDisjoint (memRun []
      [.allocatePool 2 8192 (some 4096), .allocatePages 2 2 1 0x10000 none,
       .freePages 4096 2]) :=
  memRun_preserves_activeDisjoint []
    [.allocatePool 2 8192 (some 4096), .allocatePages 2 2 1 0x10000 none,
     .freePages 4096 2] (by decide) (by decide)

/-! ## Claim C9: the relocation-table chunk walk -/

lemma chainPos_shift (seg : Mem) (start : Nat) (k : Nat) :
    chainPos seg (start + chunk_total_size seg start) k = chainPos seg start (k + 1) := by
  induction k with
  | zero => rfl
  | succ k ih => simp only [chainPos, ih]

lemma walk_spec_aux (seg : Mem) (bias : Nat) (endPos : Nat) :
    ∀ (fuel : Nat) (img : Mem) (start : Nat), endPos - start ≤ fuel →
    ∃ m, (parse_reloc_table_go seg bias img start endPos).1 =
        (List.range m).map (chainPos seg start) ∧
      (∀ j < m, chainPos seg start j < endPos ∧
        chunk_total_size seg (chainPos seg start j) ≠ 0) ∧
      ¬ (chainPos seg start m < endPos ∧
         chunk_total_size seg (chainPos seg start m) ≠ 0) := by
  intro fuel
  induction fuel with
  | zero =>
    intro img start hf
    have hge : ¬ start < endPos := by omega
    refine ⟨0, ?_, by omega, ?_⟩
    · rw [parse_reloc_table_go, dif_neg hge]
      rfl
    · simp only [chainPos]
      omega
  | succ fuel ih =>
    intro img start hf
    by_cases hlt : start < endPos
    · by_cases h0 : chunk_total_size seg start = 0
      · refine ⟨0, ?_, by omega, ?_⟩
        · rw [parse_reloc_table_go, dif_pos hlt, dif_pos h0]
          rfl
        · simp only [chainPos]
          exact fun hc => hc.2 h0
      · have hstep : (parse_reloc_table_go seg bias img start endPos).1 =
            start :: (parse_reloc_table_go seg bias
              (parse_chunk_relocations seg start bias img)
              (start + chunk_total_size seg start) endPos).1 := by
          rw [parse_reloc_table_go, dif_pos hlt, dif_neg h0]
        have hfuel2 : endPos - (start + chunk_total_size seg start) ≤ fuel := by
          omega
        obtain ⟨m', hm1, hm2, hm3⟩ := ih (parse_chunk_relocations seg start bias img)
          (start + chunk_total_size seg start) hfuel2
        refine ⟨m' + 1, ?_, ?_, ?_⟩
        · rw [hstep, hm1, List.range_succ_eq_map, List.map_cons, List.map_map]
          refine congrArg (chainPos seg start 0 :: ·) (List.map_congr_left ?_)
          intro k _
          simp only [Function.comp_apply]
          exact chainPos_shift seg start k
        · intro j hj
          cases j with
          | zero => exact ⟨hlt, h0⟩
          | succ j =>
            have := hm2 j (by omega)
            rwa [chainPos_shift seg start j] at this
        · rw [← chainPos_shift seg start m']
          exact hm3
    · refine ⟨0, ?_, by omega, ?_⟩
      · rw [parse_reloc_table_go, dif_neg hlt]
        rfl
      · simp only [chainPos]
        omega

/-- **C9.**  The chunk walk of `parse_reloc_table` visits chunk cursor
positions `chainPos 0, chainPos 1, ...` in order (each advance is
exactly the total size reported by the current chunk) and stops at
exactly the first index whose position has reached the segment end or
whose chunk reports total size 0: there is an `m` such that precisely
the first `m` chain positions are processed — every one of them below
the segment end with a nonzero size — and position `m` is the first
that fails this, so no later chunk is ever processed. -/
theorem parse_reloc_table_walk_spec (seg : Mem) (bufAddr bufsz bias : Nat)
    (img : Mem) :
    ∃ m, (parse_reloc_table seg bufAddr bufsz bias img).1 =
        (List.range m).map (chainPos seg bufAddr) ∧
      (∀ j < m, chainPos seg bufAddr j < bufAddr + bufsz ∧
        chunk_total_size seg (chainPos seg bufAddr j) ≠ 0) ∧
      ¬ (chainPos seg bufAddr m < bufAddr + bufsz ∧
         chunk_total_size seg (chainPos seg bufAddr m) ≠ 0) :=
  walk_spec_aux seg bias (bufAddr + bufsz) (bufAddr + bufsz - bufAddr) img bufAddr
    (le_refl _)

/-! ## Claim C5: fail-fast of the PE segment copy -/

/-- **C5.**  Failing input for the claim that a copy failure makes the
load "fail immediately with a fault, no partial-success state".  With a
copy oracle that faults on the very first chunk of segment 0,
`kimage_load_pe_segment` does return `-EFAULT` for segment 0 after
attempting only that one chunk (the per-segment loop IS fail-fast),
but `kimage_load_pe` discards that return value: it goes on to copy
segment 1 completely (return 0, one chunk copied) and, being `void`,
surfaces no fault at all — the caller proceeds to relocation and to
running the partially copied guest. -/
theorem kimage_load_pe_ignores_segment_fault :
    kimage_load_pe (fun i _ => i == 0) [⟨0, 8192, 8192⟩, ⟨8192, 4096, 4096⟩] =
      [(EFAULT_NEG, [(0, 4096)]), (0, [(0, 4096)])] := by
  have h0 : kimage_load_pe_segment (fun _ => true) ⟨0, 8192, 8192⟩ =
      (EFAULT_NEG, [(0, 4096)]) := by
    rw [kimage_load_pe_segment, kimage_load_pe_segment_go.eq_def]
    norm_num [PAGE_SIZE]
  have h1 : kimage_load_pe_segment (fun _ => false) ⟨8192, 4096, 4096⟩ =
      (0, [(0, 4096)]) := by
    rw [kimage_load_pe_segment, kimage_load_pe_segment_go.eq_def]
    norm_num [PAGE_SIZE]
    rw [kimage_load_pe_segment_go.eq_def]
    norm_num
  rw [kimage_load_pe]
  norm_num [List.range_succ, h0, h1, show ((1 : Nat) == 0) = false from rfl]

/-! ## Claim C4: DIR64 relocation patching -/

lemma write64_outside (m : Mem) (a v x : Nat) (h : x < a ∨ a + 8 ≤ x) :
    write64 m a v x = m x := by
  unfold write64
  rw [if_neg]
  omega

lemma readLE_congr (m₁ m₂ : Mem) (a : Nat) :
    ∀ (w : Nat), (∀ x, a ≤ x → x < a + w → m₁ x = m₂ x) →
      readLE m₁ a w = readLE m₂ a w := by
  intro w
  induction w generalizing a with
  | zero => intro _; rfl
  | succ w ih =>
    intro h
    unfold readLE readByte
    rw [h a (le_refl a) (by omega), ih (a + 1) fun x hx1 hx2 => h x (by omega) (by omega)]

lemma readLE_write64_of_le (m : Mem) (a v : Nat) :
    ∀ (w k : Nat), k + w ≤ 8 →
      readLE (write64 m a v) (a + k) w = v / 256 ^ k % 256 ^ w := by
  intro w
  induction w with
  | zero =>
    intro k _
    simp [readLE, Nat.mod_one]
  | succ w ih =>
    intro k hk
    unfold readLE readByte
    have hb : write64 m a v (a + k) = v / 256 ^ k % 256 := by
      unfold write64
      rw [if_pos (by omega), Nat.add_sub_cancel_left]
    have hrec : readLE (write64 m a v) (a + k + 1) w = v / 256 ^ (k + 1) % 256 ^ w := by
      have := ih (k + 1) (by omega)
      rwa [← Nat.add_assoc] at this
    have hdd : v / 256 ^ (k + 1) = v / 256 ^ k / 256 := by
      rw [Nat.pow_succ, Nat.div_div_eq_div_mul]
    rw [hb, hrec, hdd, Nat.pow_succ, Nat.mul_comm (256 ^ w) 256, Nat.mod_mul]
    omega

lemma read64_write64_same (m : Mem) (a v : Nat) :
    read64 (write64 m a v) a = v % 2 ^ 64 := by
  have h := readLE_write64_of_le m a v 8 0 (by omega)
  simp only [Nat.add_zero, Nat.pow_zero, Nat.div_one] at h
  unfold read64
  rw [h]
  norm_num

lemma read64_write64_disjoint (m : Mem) (a v b : Nat)
    (h : b + 8 ≤ a ∨ a + 8 ≤ b) :
    read64 (write64 m a v) b = read64 m b := by
  unfold read64
  exact readLE_congr _ _ b 8 fun x hx1 hx2 => write64_outside m a v x (by omega)

lemma applyReloc_outside (seg : Mem) (c bias : Nat) (m : Mem) (i x : Nat)
    (hx : relocType seg c i = IMAGE_REL_BASED_DIR64 →
      x < relocTarget seg c bias i ∨ relocTarget seg c bias i + 8 ≤ x) :
    applyReloc seg c bias m i x = m x := by
  unfold applyReloc
  by_cases h10 : relocType seg c i = IMAGE_REL_BASED_DIR64
  · rw [if_pos h10]
    exact write64_outside _ _ _ _ (hx h10)
  · rw [if_neg h10]

lemma foldl_applyReloc_outside (seg : Mem) (c bias : Nat) (l : List Nat) :
    ∀ (m : Mem) (x : Nat),
      (∀ j ∈ l, relocType seg c j = IMAGE_REL_BASED_DIR64 →
        x < relocTarget seg c bias j ∨ relocTarget seg c bias j + 8 ≤ x) →
      l.foldl (applyReloc seg c bias) m x = m x := by
  induction l with
  | nil =>
    intro m x _
    rfl
  | cons j l ih =>
    intro m x h
    rw [List.foldl_cons, ih _ x fun j' hj' => h j' (List.mem_cons_of_mem _ hj'),
        applyReloc_outside seg c bias m j x (h j (by simp))]

lemma foldl_read64_untouched (seg : Mem) (c bias : Nat) (l : List Nat)
    (m : Mem) (t : Nat)
    (h : ∀ j ∈ l, relocType seg c j = IMAGE_REL_BASED_DIR64 →
      t + 8 ≤ relocTarget seg c bias j ∨ relocTarget seg c bias j + 8 ≤ t) :
    read64 (l.foldl (applyReloc seg c bias) m) t = read64 m t := by
  unfold read64
  refine readLE_congr _ _ t 8 fun x hx1 hx2 => ?_
  refine foldl_applyReloc_outside seg c bias l m x fun j hj h10 => ?_
  have := h j hj h10
  omega

lemma range_split_at (i n : Nat) (h : i < n) :
    List.range n = List.range i ++ i ::
      (List.range (n - i - 1)).map (fun x => i + (x + 1)) := by
  conv_lhs => rw [show n = i + ((n - i - 1) + 1) by omega]
  rw [List.range_add, List.range_succ_eq_map]
  simp only [List.map_cons, Nat.add_zero, List.map_map, Function.comp]
  rfl

lemma parse_chunk_dir64 (seg : Mem) (c bias : Nat) (m : Mem) (i : Nat)
    (hi : i < chunk_num_relocs seg c)
    (h10 : relocType seg c i = IMAGE_REL_BASED_DIR64)
    (hdisj : ∀ j < chunk_num_relocs seg c, j ≠ i →
      relocType seg c j = IMAGE_REL_BASED_DIR64 →
      relocTarget seg c bias i + 8 ≤ relocTarget seg c bias j ∨
      relocTarget seg c bias j + 8 ≤ relocTarget seg c bias i) :
    read64 (parse_chunk_relocations seg c bias m) (relocTarget seg c bias i) =
      (read64 m (relocTarget seg c bias i) + (2 ^ 64 - IMAGE_BASE) + bias % 2 ^ 64)
        % 2 ^ 64 := by
  unfold parse_chunk_relocations
  rw [range_split_at i (chunk_num_relocs seg c) hi, List.foldl_append,
    List.foldl_cons]
  set t := relocTarget seg c bias i with ht
  set m₀ := List.foldl (applyReloc seg c bias) m (List.range i) with hm₀
  have hpre : read64 m₀ t = read64 m t := by
    rw [hm₀]
    refine foldl_read64_untouched seg c bias _ _ _ fun j hj hj10 => ?_
    have hjlt : j < i := List.mem_range.mp hj
    exact hdisj j (by omega) (by omega) hj10
  have hstep : applyReloc seg c bias m₀ i =
      write64 m₀ t ((read64 m₀ t + (2 ^ 64 - IMAGE_BASE) + bias % 2 ^ 64) % 2 ^ 64) := by
    unfold applyReloc
    rw [if_pos h10]
  rw [hstep]
  have htail : ∀ mm : Mem, read64 (List.foldl (applyReloc seg c bias) mm
      ((List.range (chunk_num_relocs seg c - i - 1)).map fun x => i + (x + 1))) t =
      read64 mm t := by
    intro mm
    refine foldl_read64_untouched seg c bias _ _ _ fun j hj hj10 => ?_
    obtain ⟨x, hx, rfl⟩ := List.mem_map.mp hj
    have hxlt := List.mem_range.mp hx
    exact hdisj (i + (x + 1)) (by omega) (by omega) hj10
  rw [htail, read64_write64_same, hpre, Nat.mod_mod_of_dvd _ dvd_rfl]

/-- **C4.**  For every relocation chunk and every entry `i` of type
`IMAGE_REL_BASED_DIR64` (10), processing the chunk replaces the 8-byte
little-endian value at `bias + entry.offset + chunk.page_rva` with
`old - IMAGE_BASE + bias` in `uint64_t` arithmetic (provided the 8-byte
windows of distinct DIR64 entries do not overlap, so that "old" is the
value the buffer held before relocation), and every byte outside the
DIR64 target windows — in particular anything referenced by entries of
every other relocation type — is left unchanged. -/
theorem parse_chunk_relocations_dir64_spec (seg : Mem) (c bias : Nat) (m : Mem)
    (i : Nat)
    (hi : i < chunk_num_relocs seg c)
    (h10 : relocType seg c i = IMAGE_REL_BASED_DIR64)
    (hdisj : ∀ j < chunk_num_relocs seg c, j ≠ i →
      relocType seg c j = IMAGE_REL_BASED_DIR64 →
      relocTarget seg c bias i + 8 ≤ relocTarget seg c bias j ∨
      relocTarget seg c bias j + 8 ≤ relocTarget seg c bias i) :
    read64 (parse_chunk_relocations seg c bias m) (relocTarget seg c bias i) =
      (read64 m (relocTarget seg c bias i) + (2 ^ 64 - IMAGE_BASE) + bias % 2 ^ 64)
        % 2 ^ 64 ∧
    (∀ x, (∀ j < chunk_num_relocs seg c,
        relocType seg c j = IMAGE_REL_BASED_DIR64 →
        x < relocTarget seg c bias j ∨ relocTarget seg c bias j + 8 ≤ x) →
      parse_chunk_relocations seg c bias m x = m x) := by
  refine ⟨parse_chunk_dir64 seg c bias m i hi h10 hdisj, fun x hx => ?_⟩
  unfold parse_chunk_relocations
  exact foldl_applyReloc_outside seg c bias _ m x fun j hj hj10 =>
    hx j (List.mem_range.mp hj) hj10

/-- The `.reloc` bytes of the witness chunk: page RVA 0x1000, total
size 12, one DIR64 entry at offset 0x004 and one ABSOLUTE (type 0)
entry at offset 0x008. -/
def c4seg : Mem := fun x =>
  [0x00, 0x10, 0x00, 0x00, 0x0C, 0x00, 0x00, 0x00, 0x04, 0xA0, 0x08, 0x00].getD x 0

/-- Witness image: the 8 bytes at the DIR64 target hold the link-time
value `IMAGE_BASE + 0x123`; every other byte is 77. -/
def c4img : Mem := write64 (fun _ => 77) 0x20001004 0x10000123

/-- Witness for C4, the scenario of the claim: link base `IMAGE_BASE =
0x10000000`, image actually placed at bias 0x20000000, stored value
`0x10000000 + 0x123`.  After relocation the patched field reads
`0x20000000 + 0x123`, and a byte outside the DIR64 window (here right
after it) is untouched. -/
theorem parse_chunk_relocations_dir64_spec_witness :
    read64 (parse_chunk_relocations c4seg 0 0x20000000 c4img) 0x20001004 =
      0x20000000 + 0x123 ∧
    parse_chunk_relocations c4seg 0 0x20000000 c4img 0x2000100C =
      c4img 0x2000100C := by
  have h := parse_chunk_relocations_dir64_spec c4seg 0 0x20000000 c4img 0
    (by decide) (by decide) (by decide)
  exact ⟨h.1.trans (by decide), h.2 0x2000100C (by decide)⟩
